import Mathlib

/-!
Verification of the specification-resolution and data-transformation core of
the `plotnine-mcp` repository, as a shallow embedding in Lean 4.

Conventions of the embedding:
* A pandas `DataFrame` is modelled as `DataFrame`: an ordered list of column
  names, a row-major list of rows (each row a list of cells), and an explicit
  integer index (pandas row labels).  A cell is `Option Value`; `none` models
  a missing value (`NaN`/`None`).
* Numeric scalars are modelled as exact rationals (`ℚ`), the standard
  idealisation of floats.  Python booleans compare numerically
  (`True = 1`, `False = 0`), as in pandas object comparisons.
* Fallible Python code (raising exceptions) is modelled with
  `Except String`, the error payload being the exception message that the
  source constructs.
* The pandas engine itself is an external collaborator of the repository;
  its documented behaviour (`fillna` accepting only the
  `ffill`/`bfill`/`pad`/`backfill` method strings, NaN placed last when
  sorting, index semantics of `reset_index`) is embedded directly where
  the source calls into it.  One behaviour pandas leaves underspecified
  is the tie order of `sort_values` when called, as the source does,
  without a `kind` argument on a single sort column (the default
  quicksort is not documented stable there); this embedding picks a
  deterministic stable refinement of that underspecified order so that
  the pipeline stays executable, and no theorem of this file treats that
  tie order as a property of the program.
-/

/-- A scalar cell value of a tabular dataset: numeric, text or boolean.
A missing value is represented outside this type, as `none : Option Value`. -/
inductive Value where
  | num (q : ℚ)
  | str (s : String)
  | bool (b : Bool)
deriving DecidableEq

/-- A row of a dataset: one cell per column, `none` for missing. -/
abbrev Row := List (Option Value)

/-- Three-way comparison induced by a linear order. -/
def cmpO {α : Type} [LinearOrder α] (a b : α) : Ordering :=
  if a < b then .lt else if b < a then .gt else .eq

theorem cmpO_eq_lt {α : Type} [LinearOrder α] {a b : α} :
    cmpO a b = .lt ↔ a < b := by
  unfold cmpO
  split_ifs with h1 h2 <;> simp [h1]

theorem cmpO_eq_gt {α : Type} [LinearOrder α] {a b : α} :
    cmpO a b = .gt ↔ b < a := by
  unfold cmpO
  split_ifs with h1 h2
  · simp [lt_asymm h1]
  · simp [h2]
  · simp [h2]

theorem cmpO_eq_eq {α : Type} [LinearOrder α] {a b : α} :
    cmpO a b = .eq ↔ a = b := by
  unfold cmpO
  split_ifs with h1 h2
  · simp [h1.ne]
  · simp [h2.ne']
  · simp [le_antisymm (le_of_not_lt h2) (le_of_not_lt h1)]

theorem cmpO_swap {α : Type} [LinearOrder α] (a b : α) :
    cmpO a b = (cmpO b a).swap := by
  rcases lt_trichotomy a b with h | h | h
  · rw [cmpO_eq_lt.mpr h, cmpO_eq_gt.mpr h]
    rfl
  · subst h
    rw [cmpO_eq_eq.mpr rfl]
    rfl
  · rw [cmpO_eq_gt.mpr h, cmpO_eq_lt.mpr h]
    rfl

/-- The sorting key of a scalar: numbers and booleans share the numeric
axis (pandas compares `True` as `1` and `False` as `0`); text values live on
a separate axis.  Mixed numeric/text columns would raise in pandas; the
comparator is totalised by placing all text after all numbers. -/
def vkey : Value → ℚ ⊕ String
  | .num q => .inl q
  | .bool b => .inl (if b then 1 else 0)
  | .str s => .inr s

/-- Three-way comparison of sorting keys: numeric axis first, then text. -/
def cmpSum : ℚ ⊕ String → ℚ ⊕ String → Ordering
  | .inl a, .inl b => cmpO a b
  | .inl _, .inr _ => .lt
  | .inr _, .inl _ => .gt
  | .inr a, .inr b => cmpO a b

/-- Three-way comparison of scalar values, as pandas `sort_values` orders
homogeneous columns. -/
def cmpValue (v w : Value) : Ordering := cmpSum (vkey v) (vkey w)

theorem cmpSum_swap (a b : ℚ ⊕ String) : cmpSum a b = (cmpSum b a).swap := by
  cases a <;> cases b <;> simp only [cmpSum] <;> first | rfl | exact cmpO_swap ..

theorem cmpSum_eq_trans {a b c : ℚ ⊕ String} (h₁ : cmpSum a b = .eq)
    (h₂ : cmpSum b c = .eq) : cmpSum a c = .eq := by
  cases a <;> cases b <;> cases c <;> simp only [cmpSum] at * <;>
    first
      | rfl
      | exact absurd h₁ (by decide)
      | exact absurd h₂ (by decide)
      | exact cmpO_eq_eq.mpr ((cmpO_eq_eq.mp h₁).trans (cmpO_eq_eq.mp h₂))

theorem cmpSum_lt_trans {a b c : ℚ ⊕ String} (h₁ : cmpSum a b = .lt)
    (h₂ : cmpSum b c = .lt) : cmpSum a c = .lt := by
  cases a <;> cases b <;> cases c <;> simp only [cmpSum] at * <;>
    first
      | rfl
      | exact absurd h₁ (by decide)
      | exact absurd h₂ (by decide)
      | exact cmpO_eq_lt.mpr ((cmpO_eq_lt.mp h₁).trans (cmpO_eq_lt.mp h₂))

theorem cmpSum_eq_lt_trans {a b c : ℚ ⊕ String} (h₁ : cmpSum a b = .eq)
    (h₂ : cmpSum b c = .lt) : cmpSum a c = .lt := by
  cases a <;> cases b <;> cases c <;> simp only [cmpSum] at * <;>
    first
      | rfl
      | exact absurd h₁ (by decide)
      | exact absurd h₂ (by decide)
      | exact cmpO_eq_lt.mpr ((cmpO_eq_eq.mp h₁) ▸ cmpO_eq_lt.mp h₂)

theorem cmpSum_lt_eq_trans {a b c : ℚ ⊕ String} (h₁ : cmpSum a b = .lt)
    (h₂ : cmpSum b c = .eq) : cmpSum a c = .lt := by
  cases a <;> cases b <;> cases c <;> simp only [cmpSum] at * <;>
    first
      | rfl
      | exact absurd h₁ (by decide)
      | exact absurd h₂ (by decide)
      | exact cmpO_eq_lt.mpr ((cmpO_eq_eq.mp h₂) ▸ cmpO_eq_lt.mp h₁)

/-- Ascending three-way comparison of two cells, following pandas
`sort_values` semantics: missing values are placed last
(`na_position = last` is the pandas default used by the source). -/
def cmpCellA : Option Value → Option Value → Ordering
  | none, none => .eq
  | none, some _ => .gt
  | some _, none => .lt
  | some x, some y => cmpValue x y

/-- Cell comparison under an `ascending` flag: a descending flag reverses
the order of present values while missing values remain last, which is
exactly the ascending comparison of the swapped arguments. -/
def cmpCell (asc : Bool) (a b : Option Value) : Ordering :=
  if asc then cmpCellA a b else cmpCellA b a

theorem cmpCellA_swap (a b : Option Value) : cmpCellA a b = (cmpCellA b a).swap := by
  cases a <;> cases b <;> simp only [cmpCellA, cmpValue] <;>
    first | rfl | exact cmpSum_swap ..

theorem cmpCellA_refl (a : Option Value) : cmpCellA a a = .eq := by
  cases a <;> simp only [cmpCellA, cmpValue]
  cases h : cmpSum (vkey ‹Value›) (vkey ‹Value›)
  · have := cmpSum_swap (vkey ‹Value›) (vkey ‹Value›)
    rw [h] at this
    exact absurd this (by decide)
  · rfl
  · have := cmpSum_swap (vkey ‹Value›) (vkey ‹Value›)
    rw [h] at this
    exact absurd this (by decide)

theorem cmpCellA_eq_trans {a b c : Option Value} (h₁ : cmpCellA a b = .eq)
    (h₂ : cmpCellA b c = .eq) : cmpCellA a c = .eq := by
  cases a <;> cases b <;> cases c <;> simp only [cmpCellA, cmpValue] at * <;>
    first
      | rfl
      | exact absurd h₁ (by decide)
      | exact absurd h₂ (by decide)
      | exact cmpSum_eq_trans h₁ h₂

theorem cmpCellA_lt_trans {a b c : Option Value} (h₁ : cmpCellA a b = .lt)
    (h₂ : cmpCellA b c = .lt) : cmpCellA a c = .lt := by
  cases a <;> cases b <;> cases c <;> simp only [cmpCellA, cmpValue] at * <;>
    first
      | rfl
      | exact absurd h₁ (by decide)
      | exact absurd h₂ (by decide)
      | exact cmpSum_lt_trans h₁ h₂

theorem cmpCellA_eq_lt_trans {a b c : Option Value} (h₁ : cmpCellA a b = .eq)
    (h₂ : cmpCellA b c = .lt) : cmpCellA a c = .lt := by
  cases a <;> cases b <;> cases c <;> simp only [cmpCellA, cmpValue] at * <;>
    first
      | rfl
      | exact absurd h₁ (by decide)
      | exact absurd h₂ (by decide)
      | exact cmpSum_eq_lt_trans h₁ h₂

theorem cmpCellA_lt_eq_trans {a b c : Option Value} (h₁ : cmpCellA a b = .lt)
    (h₂ : cmpCellA b c = .eq) : cmpCellA a c = .lt := by
  cases a <;> cases b <;> cases c <;> simp only [cmpCellA, cmpValue] at * <;>
    first
      | rfl
      | exact absurd h₁ (by decide)
      | exact absurd h₂ (by decide)
      | exact cmpSum_lt_eq_trans h₁ h₂

theorem cmpCell_swap (asc : Bool) (a b : Option Value) :
    cmpCell asc a b = (cmpCell asc b a).swap := by
  cases asc <;> simp only [cmpCell, if_true, if_false] <;> exact cmpCellA_swap ..

theorem cmpCell_refl (asc : Bool) (a : Option Value) : cmpCell asc a a = .eq := by
  cases asc <;> simp only [cmpCell, if_true, if_false] <;> exact cmpCellA_refl a

theorem cmpCell_eq_trans {asc : Bool} {a b c : Option Value}
    (h₁ : cmpCell asc a b = .eq) (h₂ : cmpCell asc b c = .eq) :
    cmpCell asc a c = .eq := by
  cases asc <;> simp only [cmpCell, if_true, if_false] at * <;>
    first
      | exact cmpCellA_eq_trans h₁ h₂
      | exact cmpCellA_eq_trans h₂ h₁

theorem cmpCell_lt_trans {asc : Bool} {a b c : Option Value}
    (h₁ : cmpCell asc a b = .lt) (h₂ : cmpCell asc b c = .lt) :
    cmpCell asc a c = .lt := by
  cases asc <;> simp only [cmpCell, if_true, if_false] at * <;>
    first
      | exact cmpCellA_lt_trans h₁ h₂
      | exact cmpCellA_lt_trans h₂ h₁

theorem cmpCell_eq_lt_trans {asc : Bool} {a b c : Option Value}
    (h₁ : cmpCell asc a b = .eq) (h₂ : cmpCell asc b c = .lt) :
    cmpCell asc a c = .lt := by
  cases asc <;> simp only [cmpCell, if_true, if_false] at * <;>
    first
      | exact cmpCellA_eq_lt_trans h₁ h₂
      | exact cmpCellA_lt_eq_trans h₂ h₁

theorem cmpCell_lt_eq_trans {asc : Bool} {a b c : Option Value}
    (h₁ : cmpCell asc a b = .lt) (h₂ : cmpCell asc b c = .eq) :
    cmpCell asc a c = .lt := by
  cases asc <;> simp only [cmpCell, if_true, if_false] at * <;>
    first
      | exact cmpCellA_lt_eq_trans h₁ h₂
      | exact cmpCellA_eq_lt_trans h₂ h₁

/-- One resolved sort key of `sort_values`: the per-column ascending flag
paired with the position of the sort column. -/
abbrev SortSpec := Bool × Nat

/-- Lexicographic three-way comparison of two rows over a list of sort
keys, as pandas `sort_values` compares rows for a multi-column sort. -/
def cmpKeyRow (specs : List SortSpec) (r₁ r₂ : Row) : Ordering :=
  match specs with
  | [] => .eq
  | (asc, i) :: rest =>
    match cmpCell asc (r₁.getD i none) (r₂.getD i none) with
    | .eq => cmpKeyRow rest r₁ r₂
    | o => o

/-- The tuple of sort-key cells of a row (the pandas sort key). -/
def keyOf (specs : List SortSpec) (r : Row) : List (Option Value) :=
  specs.map (fun s => r.getD s.2 none)

theorem cmpKeyRow_swap (specs : List SortSpec) (r₁ r₂ : Row) :
    cmpKeyRow specs r₁ r₂ = (cmpKeyRow specs r₂ r₁).swap := by
  induction specs with
  | nil => rfl
  | cons s rest ih =>
    obtain ⟨asc, i⟩ := s
    simp only [cmpKeyRow]
    rw [cmpCell_swap]
    cases cmpCell asc (r₂.getD i none) (r₁.getD i none)
    · simp only [Ordering.swap]
    · simp only [Ordering.swap]
      exact ih
    · simp only [Ordering.swap]

theorem cmpKeyRow_le_trans {specs : List SortSpec} {a b c : Row}
    (h₁ : cmpKeyRow specs a b ≠ .gt) (h₂ : cmpKeyRow specs b c ≠ .gt) :
    cmpKeyRow specs a c ≠ .gt := by
  induction specs with
  | nil => simp [cmpKeyRow]
  | cons s rest ih =>
    obtain ⟨asc, i⟩ := s
    simp only [cmpKeyRow] at *
    cases hx : cmpCell asc (a.getD i none) (b.getD i none) with
    | lt =>
      cases hy : cmpCell asc (b.getD i none) (c.getD i none) with
      | lt => rw [cmpCell_lt_trans hx hy]; simp
      | eq => rw [cmpCell_lt_eq_trans hx hy]; simp
      | gt => rw [hy] at h₂; simp at h₂
    | eq =>
      cases hy : cmpCell asc (b.getD i none) (c.getD i none) with
      | lt => rw [cmpCell_eq_lt_trans hx hy]; simp
      | eq =>
        rw [cmpCell_eq_trans hx hy]
        simp only [hx] at h₁
        simp only [hy] at h₂
        exact ih h₁ h₂
      | gt => rw [hy] at h₂; simp at h₂
    | gt => rw [hx] at h₁; simp at h₁

theorem cmpKeyRow_eq_of_keyOf_eq {specs : List SortSpec} {a b : Row}
    (h : keyOf specs a = keyOf specs b) : cmpKeyRow specs a b = .eq := by
  induction specs with
  | nil => rfl
  | cons s rest ih =>
    obtain ⟨asc, i⟩ := s
    simp only [keyOf, List.map_cons, List.cons.injEq] at h
    simp only [cmpKeyRow, h.1, cmpCell_refl]
    exact ih h.2

/-- The non-strict row order used to model the stable sort performed by
`sort_values`: row `a` may come before row `b` iff `a` does not compare
strictly greater. -/
def rowLe (specs : List SortSpec) (a b : Row) : Prop :=
  cmpKeyRow specs a b ≠ .gt

instance rowLeDecidable (specs : List SortSpec) : DecidableRel (rowLe specs) :=
  fun a b => by unfold rowLe; infer_instance

instance rowLeTotal (specs : List SortSpec) : IsTotal Row (rowLe specs) := by
  constructor
  intro a b
  by_cases h : cmpKeyRow specs a b = .gt
  · right
    intro hba
    rw [cmpKeyRow_swap, hba] at h
    exact absurd h (by decide)
  · left
    exact h

instance rowLeTrans (specs : List SortSpec) : IsTrans Row (rowLe specs) := by
  constructor
  intro a b c h₁ h₂
  exact cmpKeyRow_le_trans h₁ h₂

theorem rowLe_of_keyOf_eq {specs : List SortSpec} {a b : Row}
    (h : keyOf specs a = keyOf specs b) : rowLe specs a b := by
  unfold rowLe
  rw [cmpKeyRow_eq_of_keyOf_eq h]
  exact fun hc => absurd hc (by decide)

/-- A pandas `DataFrame`: ordered column names, row-major cells, and the
explicit row index (pandas row labels, reset or preserved by the various
operations exactly as the source's pandas calls do). -/
structure DataFrame where
  cols : List String
  rows : List Row
  index : List Int
deriving DecidableEq

/-- Well-formedness: every row has one cell per column and there is one
index label per row. -/
def DataFrame.WF (d : DataFrame) : Prop :=
  (∀ r ∈ d.rows, r.length = d.cols.length) ∧ d.index.length = d.rows.length

/-- Position of a column name, leftmost occurrence. -/
def colIdx (cols : List String) (c : String) : Option Nat :=
  cols.indexOf? c

/-- The cells of one column, top to bottom. -/
def getColCells (d : DataFrame) (i : Nat) : List (Option Value) :=
  d.rows.map (fun r => r.getD i none)

/-- Overwrite position `i` of a row with a new cell (used to model
in-place single-column assignment `df[col] = series`). -/
def setCell (r : Row) (i : Nat) (v : Option Value) : Row :=
  r.set i v

/-- Assign a whole column: overwrite an existing column in place, or
append a new column at the right edge, as `df[name] = series` does. -/
def setColumn (d : DataFrame) (name : String) (cells : List (Option Value)) : DataFrame :=
  match colIdx d.cols name with
  | some i => { d with rows := d.rows.zipWith (fun r v => setCell r i v) cells }
  | none =>
    { d with
      cols := d.cols ++ [name]
      rows := d.rows.zipWith (fun r v => r ++ [v]) cells }

/-- The expression sublanguage accepted by `DataFrame.query` and
`DataFrame.eval` (boolean row predicates and arithmetic over columns), as
used by the `filter` and `mutate` transform steps.  The Python source
receives these as strings; the embedding works with the parsed form. -/
inductive Expr where
  | col (name : String)
  | lit (v : Value)
  | add (a b : Expr)
  | sub (a b : Expr)
  | mul (a b : Expr)
  | cmpEq (a b : Expr)
  | cmpNe (a b : Expr)
  | cmpLt (a b : Expr)
  | cmpLe (a b : Expr)
  | cmpGt (a b : Expr)
  | cmpGe (a b : Expr)
  | band (a b : Expr)
  | bor (a b : Expr)
  | bnot (a : Expr)
deriving DecidableEq

/-- Numeric view of a scalar (Python booleans act as 0/1 in arithmetic). -/
def asNum : Value → Option ℚ
  | .num q => some q
  | .bool b => some (if b then 1 else 0)
  | .str _ => none

/-- Comparison of two present scalars as `query`/`eval` perform it:
numbers (and booleans) compare numerically, strings compare
lexicographically, a number/string comparison raises `TypeError`. -/
def cmpScalar (x y : Value) : Except String Ordering :=
  match asNum x, asNum y with
  | some a, some b => .ok (cmpO a b)
  | none, none =>
    match x, y with
    | .str a, .str b => .ok (cmpO a b)
    | _, _ => .error "TypeError: unsupported comparison"
  | _, _ => .error "TypeError: unsupported comparison between str and numeric"

/-- Evaluate one expression on one row (`DataFrame.query` / `eval`
semantics): unknown columns raise; arithmetic propagates missing values;
comparisons with a missing operand are False; logical operators require
booleans. -/
def evalExpr (cols : List String) (r : Row) : Expr → Except String (Option Value)
  | .col name =>
    match colIdx cols name with
    | some i => .ok (r.getD i none)
    | none => .error ("name \x27" ++ name ++ "\x27 is not defined")
  | .lit v => .ok (some v)
  | .add a b => do
    let x ← evalExpr cols r a
    let y ← evalExpr cols r b
    match x, y with
    | some xv, some yv =>
      match asNum xv, asNum yv with
      | some p, some q => .ok (some (.num (p + q)))
      | _, _ =>
        match xv, yv with
        | .str p, .str q => .ok (some (.str (p ++ q)))
        | _, _ => .error "TypeError: unsupported operand types for add"
    | _, _ => .ok none
  | .sub a b => do
    let x ← evalExpr cols r a
    let y ← evalExpr cols r b
    match x, y with
    | some xv, some yv =>
      match asNum xv, asNum yv with
      | some p, some q => .ok (some (.num (p - q)))
      | _, _ => .error "TypeError: unsupported operand types for sub"
    | _, _ => .ok none
  | .mul a b => do
    let x ← evalExpr cols r a
    let y ← evalExpr cols r b
    match x, y with
    | some xv, some yv =>
      match asNum xv, asNum yv with
      | some p, some q => .ok (some (.num (p * q)))
      | _, _ => .error "TypeError: unsupported operand types for mul"
    | _, _ => .ok none
  | .cmpEq a b => do
    let x ← evalExpr cols r a
    let y ← evalExpr cols r b
    match x, y with
    | some xv, some yv => do
      let o ← cmpScalar xv yv
      .ok (some (.bool (o == .eq)))
    | _, _ => .ok (some (.bool false))
  | .cmpNe a b => do
    let x ← evalExpr cols r a
    let y ← evalExpr cols r b
    match x, y with
    | some xv, some yv => do
      let o ← cmpScalar xv yv
      .ok (some (.bool (o != .eq)))
    | _, _ => .ok (some (.bool true))
  | .cmpLt a b => do
    let x ← evalExpr cols r a
    let y ← evalExpr cols r b
    match x, y with
    | some xv, some yv => do
      let o ← cmpScalar xv yv
      .ok (some (.bool (o == .lt)))
    | _, _ => .ok (some (.bool false))
  | .cmpLe a b => do
    let x ← evalExpr cols r a
    let y ← evalExpr cols r b
    match x, y with
    | some xv, some yv => do
      let o ← cmpScalar xv yv
      .ok (some (.bool (o != .gt)))
    | _, _ => .ok (some (.bool false))
  | .cmpGt a b => do
    let x ← evalExpr cols r a
    let y ← evalExpr cols r b
    match x, y with
    | some xv, some yv => do
      let o ← cmpScalar xv yv
      .ok (some (.bool (o == .gt)))
    | _, _ => .ok (some (.bool false))
  | .cmpGe a b => do
    let x ← evalExpr cols r a
    let y ← evalExpr cols r b
    match x, y with
    | some xv, some yv => do
      let o ← cmpScalar xv yv
      .ok (some (.bool (o != .lt)))
    | _, _ => .ok (some (.bool false))
  | .band a b => do
    let x ← evalExpr cols r a
    let y ← evalExpr cols r b
    match x, y with
    | some (.bool p), some (.bool q) => .ok (some (.bool (p && q)))
    | _, _ => .error "TypeError: unsupported operand types for and"
  | .bor a b => do
    let x ← evalExpr cols r a
    let y ← evalExpr cols r b
    match x, y with
    | some (.bool p), some (.bool q) => .ok (some (.bool (p || q)))
    | _, _ => .error "TypeError: unsupported operand types for or"
  | .bnot a => do
    let x ← evalExpr cols r a
    match x with
    | some (.bool p) => .ok (some (.bool (!p)))
    | _ => .error "TypeError: unsupported operand type for not"

/-- Run a `query` row mask over indexed rows, keeping rows whose predicate
is `True`; a row whose predicate is not a boolean raises, as pandas
`query` does. -/
def queryRows (cols : List String) (e : Expr) :
    List (Int × Row) → Except String (List (Int × Row))
  | [] => .ok []
  | (i, r) :: rest => do
    let v ← evalExpr cols r e
    let keep ←
      match v with
      | some (.bool b) => Except.ok b
      | _ => Except.error "query expression does not evaluate to a boolean row mask"
    let tail ← queryRows cols e rest
    .ok (if keep then (i, r) :: tail else tail)

/-- `apply_filter` (transforms.py): `data.query(filter_expr)`, keeping the
original row index, any failure wrapped as a filter error. -/
def apply_filter (data : DataFrame) (filter_expr : Expr) : Except String DataFrame :=
  match queryRows data.cols filter_expr (data.index.zip data.rows) with
  | .ok kept =>
    .ok { cols := data.cols, rows := kept.map (·.2), index := kept.map (·.1) }
  | .error e =>
    .error ("Filter error: " ++ e ++ "\n\nCheck your filter expression syntax.")

/-- An aggregate function name accepted by `group_summarize`
(transforms.py docstring).  `std` is documented by the source as well but
its value (the square root of the variance) is irrational in general and
therefore lies outside the exact rational scalar model; it is not
representable in this embedding. -/
inductive AggFn where
  | sum
  | mean
  | median
  | min
  | max
  | count
  | var
deriving DecidableEq

def AggFn.name : AggFn → String
  | .sum => "sum"
  | .mean => "mean"
  | .median => "median"
  | .min => "min"
  | .max => "max"
  | .count => "count"
  | .var => "var"

/-- The `str | list[str]` union accepted as one aggregation entry. -/
inductive AggSpec where
  | one (f : AggFn)
  | many (fs : List AggFn)
deriving DecidableEq

/-- Numeric views of the present values of a group, or `none` if some
present value is not numeric (pandas raises a `TypeError` then). -/
def numsOf (vals : List Value) : Option (List ℚ) :=
  vals.mapM asNum

/-- Sorted copy of a list of rationals (helper for `median`). -/
def sortQ (l : List ℚ) : List ℚ :=
  l.insertionSort (· ≤ ·)

/-- One aggregate over the present (non-missing) values of a group,
following pandas `skipna` semantics: `sum` of nothing is `0`, `mean`,
`median`, `min`, `max` and `var` of nothing are missing, `count` counts
the present values, `var` uses `ddof = 1`. -/
def aggValue (f : AggFn) (vals : List Value) : Except String (Option Value) :=
  match f with
  | .count => .ok (some (.num vals.length))
  | .sum =>
    match vals with
    | [] => .ok (some (.num 0))
    | _ =>
      match numsOf vals with
      | some ns => .ok (some (.num (ns.foldl (· + ·) 0)))
      | none =>
        match vals.mapM (fun v => match v with | .str s => some s | _ => none) with
        | some ss => .ok (some (.str (ss.foldl (· ++ ·) "")))
        | none => .error "TypeError: unsupported operand types for sum"
  | .mean =>
    match vals with
    | [] => .ok none
    | _ =>
      match numsOf vals with
      | some ns => .ok (some (.num (ns.foldl (· + ·) 0 / ns.length)))
      | none => .error "TypeError: could not convert values to numeric for mean"
  | .median =>
    match vals with
    | [] => .ok none
    | _ =>
      match numsOf vals with
      | some ns =>
        let s := sortQ ns
        let n := s.length
        if n % 2 = 1 then .ok (some (.num (s.getD (n / 2) 0)))
        else .ok (some (.num ((s.getD (n / 2 - 1) 0 + s.getD (n / 2) 0) / 2)))
      | none => .error "TypeError: could not convert values to numeric for median"
  | .min =>
    match vals with
    | [] => .ok none
    | _ =>
      match numsOf vals with
      | some (n :: ns) => .ok (some (.num (ns.foldl Min.min n)))
      | _ =>
        match vals.mapM (fun v => match v with | .str s => some s | _ => none) with
        | some (s :: ss) => .ok (some (.str (ss.foldl Min.min s)))
        | _ => .error "TypeError: unsupported comparison in min"
  | .max =>
    match vals with
    | [] => .ok none
    | _ =>
      match numsOf vals with
      | some (n :: ns) => .ok (some (.num (ns.foldl Max.max n)))
      | _ =>
        match vals.mapM (fun v => match v with | .str s => some s | _ => none) with
        | some (s :: ss) => .ok (some (.str (ss.foldl Max.max s)))
        | _ => .error "TypeError: unsupported comparison in max"
  | .var =>
    match numsOf vals with
    | some ns =>
      if ns.length < 2 then .ok none
      else
        let m : ℚ := ns.foldl (· + ·) 0 / (ns.length : ℚ)
        .ok (some (.num ((ns.map (fun x => (x - m) * (x - m))).foldl (· + ·) 0 / ((ns.length : ℚ) - 1))))
    | none => .error "TypeError: could not convert values to numeric for var"

/-- Lexicographic comparison of two scalar tuples (group keys). -/
def cmpValueList : List Value → List Value → Ordering
  | [], [] => .eq
  | [], _ :: _ => .lt
  | _ :: _, [] => .gt
  | a :: as, b :: bs =>
    match cmpValue a b with
    | .eq => cmpValueList as bs
    | o => o

/-- Non-strict order on group-key tuples. -/
def keyTupleLe (a b : List Value) : Prop := cmpValueList a b ≠ .gt

instance keyTupleLeDecidable : DecidableRel keyTupleLe :=
  fun a b => by unfold keyTupleLe; infer_instance

/-- First-seen distinct elements of a list. -/
def distinctFirstSeen {α : Type} [DecidableEq α] : List α → List α :=
  go []
where
  go (seen : List α) : List α → List α
    | [] => []
    | a :: rest => if a ∈ seen then go seen rest else a :: go (a :: seen) rest

/-- Missing-column error text in the pandas `KeyError` style. -/
def keyErr (c : String) : String := "\x27" ++ c ++ "\x27"

/-- Missing-column-list error text in the pandas style. -/
def keyListErr (cs : List String) : String :=
  "[" ++ String.intercalate ", " (cs.map keyErr) ++ "] not in index"

/-- `apply_group_summarize` (transforms.py): `data.groupby(group_by)`
`.agg(aggregations).reset_index()` with multi-level column flattening.
Pandas semantics embedded: rows with a missing group key are dropped
(`dropna = True`), output groups come in sorted key order (`sort = True`),
and when any aggregation entry is given as a list the aggregated columns
get composite `column_function` names (the source's flattening of the
`MultiIndex`). -/
def apply_group_summarize (data : DataFrame) (group_by : List String)
    (aggregations : List (String × AggSpec)) : Except String DataFrame :=
  match run with
  | .ok d => .ok d
  | .error e => .error ("Grouping error: " ++ e ++ "\n\nCheck your group_by and aggregations.")
where
  run : Except String DataFrame := do
    let keyIdxs ← group_by.mapM (fun c =>
      match colIdx data.cols c with
      | some i => Except.ok i
      | none => Except.error (keyErr c))
    let aggIdxs ← aggregations.mapM (fun a =>
      match colIdx data.cols a.1 with
      | some i => Except.ok (a, i)
      | none => Except.error (keyListErr [a.1]))
    let keyed := data.rows.filterMap (fun r =>
      match (keyIdxs.map (fun i => r.getD i none)).mapM id with
      | some key => some (key, r)
      | none => none)
    let keys := (distinctFirstSeen (keyed.map (·.1))).insertionSort keyTupleLe
    let multi := aggregations.any (fun a => match a.2 with | .many _ => true | .one _ => false)
    let outCols := group_by ++ aggIdxs.flatMap (fun ai =>
      match ai.1.2 with
      | .one f => if multi then [ai.1.1 ++ "_" ++ f.name] else [ai.1.1]
      | .many fs => fs.map (fun f => ai.1.1 ++ "_" ++ f.name))
    let outRows ← keys.mapM (fun key => do
      let members := (keyed.filter (fun kr => kr.1 = key)).map (·.2)
      let aggCells ← aggIdxs.mapM (fun ai => do
        let vals := members.filterMap (fun r => r.getD ai.2 none)
        match ai.1.2 with
        | .one f => do
          let v ← aggValue f vals
          Except.ok [v]
        | .many fs => fs.mapM (fun f => aggValue f vals))
      Except.ok (key.map some ++ aggCells.flatten))
    Except.ok { cols := outCols, rows := outRows, index := List.range outRows.length |>.map Int.ofNat }

/-- The `bool | list[bool]` union accepted as `ascending`. -/
inductive AscSpec where
  | single (b : Bool)
  | perCol (bs : List Bool)
deriving DecidableEq

/-- Resolve the `ascending` argument to one flag per sort column, as
pandas `sort_values` does; a list of the wrong length raises. -/
def ascFlags (a : AscSpec) (n : Nat) : Except String (List Bool) :=
  match a with
  | .single b => .ok (List.replicate n b)
  | .perCol bs =>
    if bs.length = n then .ok bs
    else .error ("Length of ascending (" ++ toString bs.length ++
      ") != length of by (" ++ toString n ++ ")")

/-- Resolve a list of column names to their positions, failing with the
pandas `KeyError` text at the first absent name. -/
def resolveCols (cols : List String) : List String → Except String (List Nat)
  | [] => .ok []
  | c :: rest =>
    match colIdx cols c with
    | some i =>
      match resolveCols cols rest with
      | .ok is => .ok (i :: is)
      | .error e => .error e
    | none => .error (keyErr c)

/-- `apply_sort` (transforms.py):
`data.sort_values(by = sort_by, ascending = ascending).reset_index(drop = True)`.
Key resolution, the per-column comparator (missing values last, a
descending flag per column) and the `reset_index` renumbering from 0 are
pandas-documented behaviour.  The call passes no `kind`, so for a single
sort column pandas guarantees only sortedness and permutation (the
default quicksort is not documented stable; only the multi-column
lexsort is); the insertion sort used here is one deterministic
refinement of that underspecified tie order, chosen to keep the
embedding executable, and is not relied on as a program property. -/
def apply_sort (data : DataFrame) (sort_by : List String) (ascending : AscSpec) :
    Except String DataFrame :=
  match run with
  | .ok d => .ok d
  | .error e => .error ("Sort error: " ++ e ++ "\n\nCheck your sort_by column names.")
where
  run : Except String DataFrame :=
    match resolveCols data.cols sort_by with
    | .error e => .error e
    | .ok keyIdxs =>
      match ascFlags ascending sort_by.length with
      | .error e => .error e
      | .ok flags =>
        Except.ok
          { cols := data.cols
            rows := data.rows.insertionSort (rowLe (flags.zip keyIdxs))
            index := List.range data.rows.length |>.map Int.ofNat }

/-- The resolved sort keys of a `sort_values` call (ascending flag and
column position per sort column); empty when the call would fail. -/
def sortSpecsOf (cols : List String) (sort_by : List String) (asc : AscSpec) :
    List SortSpec :=
  match ascFlags asc sort_by.length, resolveCols cols sort_by with
  | .ok flags, .ok idxs => flags.zip idxs
  | _, _ => []

/-- `apply_select` (transforms.py): `data[columns].copy()`; all requested
columns must exist; the row index is preserved. -/
def apply_select (data : DataFrame) (columns : List String) : Except String DataFrame :=
  let missing := columns.filter (fun c => colIdx data.cols c = none)
  if missing.isEmpty then
    let idxs := columns.map (fun c => (colIdx data.cols c).getD 0)
    .ok { cols := columns
          rows := data.rows.map (fun r => idxs.map (fun i => r.getD i none))
          index := data.index }
  else
    .error ("Select error: " ++ keyListErr missing ++
      "\n\nCheck that all columns exist in data.")

/-- `apply_rename` (transforms.py): `data.rename(columns = rename_map)`;
names not mentioned pass through unchanged, mappings for absent columns
are ignored, rows and index are untouched. -/
def apply_rename (data : DataFrame) (rename_map : List (String × String)) :
    Except String DataFrame :=
  .ok { data with cols := data.cols.map (fun c => ((rename_map.lookup c).getD c)) }

/-- `apply_mutate` (transforms.py): iteratively evaluate each mutation
expression against the dataset as mutated so far and assign the named
column (`result[col_name] = result.eval(expr)`); the first failing
expression aborts with the name of the failing column. -/
def apply_mutate (data : DataFrame) (mutations : List (String × Expr)) :
    Except String DataFrame :=
  go data mutations
where
  go (d : DataFrame) : List (String × Expr) → Except String DataFrame
    | [] => .ok d
    | (name, e) :: rest =>
      match d.rows.mapM (fun r => evalExpr d.cols r e) with
      | .ok cells => go (setColumn d name cells) rest
      | .error msg =>
        .error ("Mutate error: " ++ msg ++
          "\n\nCheck your expression syntax for column \x27" ++ name ++ "\x27.")

/-- `apply_drop_na` (transforms.py):
`data.dropna(subset = columns, how = how).reset_index(drop = True)`. -/
def apply_drop_na (data : DataFrame) (columns : Option (List String)) (how : String) :
    Except String DataFrame :=
  match run with
  | .ok d => .ok d
  | .error e => .error ("Drop NA error: " ++ e)
where
  run : Except String DataFrame := do
    let idxs ←
      match columns with
      | none => Except.ok (List.range data.cols.length)
      | some cs => cs.mapM (fun c =>
          match colIdx data.cols c with
          | some i => Except.ok i
          | none => Except.error (keyListErr [c]))
    if how = "any" ∨ how = "all" then
      let keepRow (r : Row) : Bool :=
        if how = "any" then idxs.all (fun i => (r.getD i none).isSome)
        else idxs.any (fun i => (r.getD i none).isSome)
      let kept := data.rows.filter keepRow
      Except.ok { cols := data.cols, rows := kept
                  index := List.range kept.length |>.map Int.ofNat }
    else
      Except.error ("invalid how option: " ++ how)

/-- The `scalar | dict` union accepted as `fill_values`. -/
inductive FillVals where
  | scalar (v : Value)
  | perCol (m : List (String × Value))
deriving DecidableEq

/-- Forward fill of a row sequence: each missing cell takes the latest
present value seen above it in the same column position. -/
def ffillRows (last : Row) : List Row → List Row
  | [] => []
  | r :: rest =>
    let r2 := last.zipWith (fun l c => match c with | some v => some v | none => l) r
    r2 :: ffillRows r2 rest

/-- `apply_fill_na` (transforms.py): `result = data.copy()`, then
`result.fillna(method = method)` when a (truthy) method is given, else
`result.fillna(fill_values)`.  Pandas accepts only the method strings
`ffill`/`pad` (forward) and `bfill`/`backfill` (backward) and raises a
`ValueError` for anything else; scalar filling replaces every missing
cell, mapping filling replaces missing cells of the mentioned columns
only.  Rows, columns and index are otherwise preserved. -/
def apply_fill_na (data : DataFrame) (fill_values : FillVals) (method : Option String) :
    Except String DataFrame :=
  match run with
  | .ok d => .ok d
  | .error e => .error ("Fill NA error: " ++ e)
where
  blank : Row := List.replicate data.cols.length none
  run : Except String DataFrame :=
    match method with
    | some m =>
      if m.isEmpty then byValue
      else if m = "ffill" ∨ m = "pad" then
        .ok { data with rows := ffillRows blank data.rows }
      else if m = "bfill" ∨ m = "backfill" then
        .ok { data with rows := (ffillRows blank data.rows.reverse).reverse }
      else
        .error ("Invalid fill method. Expecting pad (ffill) or backfill (bfill). Got " ++ m)
    | none => byValue
  byValue : Except String DataFrame :=
    match fill_values with
    | .scalar v =>
      .ok { data with rows := data.rows.map (fun r => r.map (fun c => match c with
        | some w => some w
        | none => some v)) }
    | .perCol m =>
      .ok { data with rows := data.rows.map (fun r =>
        (data.cols.zip r).map (fun cv => match cv.2 with
          | some w => some w
          | none => m.lookup cv.1)) }

/-- One step of a 64-bit linear congruential generator; the concrete
stand-in for the pandas Mersenne-Twister stream.  Only determinism in
the seed matters to the source (`random_state` reproducibility). -/
def lcgNext (s : Nat) : Nat :=
  (6364136223846793005 * s + 1442695040888963407) % (2 ^ 64)

/-- Draw `k` positions without replacement from `avail`, driven by the
generator state (Fisher-Yates style selection). -/
def sampleIdxs : Nat → List Nat → Nat → List Nat
  | 0, _, _ => []
  | _ + 1, [], _ => []
  | k + 1, a :: avail, s =>
    let j := s % (a :: avail).length
    let chosen := (a :: avail).getD j 0
    chosen :: sampleIdxs k ((a :: avail).eraseIdx j) (lcgNext s)

/-- Python `round` (banker's rounding, halves to even). -/
def pyRound (q : ℚ) : Int :=
  let f := ⌊q⌋
  let r := q - f
  if r < 1 / 2 then f
  else if r > 1 / 2 then f + 1
  else if f % 2 = 0 then f else f + 1

/-- `apply_sample` (transforms.py): `data.sample(n = min(n, len(data)))`
or `data.sample(frac = frac)`, both seeded with `random_state`, then
`reset_index(drop = True)`; with neither `n` nor `frac` the source raises
inside its own `try` block, so the message is wrapped like every other
failure.  Sampling without replacement is embedded as a deterministic
seeded selection. -/
def apply_sample (data : DataFrame) (n : Option Nat) (frac : Option ℚ)
    (random_state : Int) : Except String DataFrame :=
  match run with
  | .ok d => .ok d
  | .error e => .error ("Sample error: " ++ e)
where
  draw (k : Nat) : DataFrame :=
    let picks := sampleIdxs k (List.range data.rows.length)
      (lcgNext random_state.natAbs)
    { cols := data.cols
      rows := picks.map (fun i => data.rows.getD i [])
      index := List.range picks.length |>.map Int.ofNat }
  run : Except String DataFrame :=
    match n with
    | some k => .ok (draw (Min.min k data.rows.length))
    | none =>
      match frac with
      | some f =>
        if f < 0 then
          .error "A negative number of rows requested. Please provide `n` >= 0."
        else if f > 1 then
          .error "Replace has to be set to `True` when upsampling the population `frac` > 1."
        else
          .ok (draw (pyRound (f * data.rows.length)).toNat)
      | none => .error "Must specify either \x27n\x27 or \x27frac\x27"

/-- `apply_unique` (transforms.py):
`data.drop_duplicates(subset = columns).reset_index(drop = True)`;
pandas keeps the first occurrence and treats missing values as equal. -/
def apply_unique (data : DataFrame) (columns : Option (List String)) :
    Except String DataFrame :=
  match run with
  | .ok d => .ok d
  | .error e => .error ("Unique error: " ++ e)
where
  dedup (idxs : List Nat) (seen : List (List (Option Value))) : List Row → List Row
    | [] => []
    | r :: rest =>
      let key := idxs.map (fun i => r.getD i none)
      if key ∈ seen then dedup idxs seen rest
      else r :: dedup idxs (key :: seen) rest
  run : Except String DataFrame := do
    let idxs ←
      match columns with
      | none => Except.ok (List.range data.cols.length)
      | some cs => cs.mapM (fun c =>
          match colIdx data.cols c with
          | some i => Except.ok i
          | none => Except.error (keyListErr [c]))
    let kept := dedup idxs [] data.rows
    Except.ok { cols := data.cols, rows := kept
                index := List.range kept.length |>.map Int.ofNat }

/-- A rolling aggregate accepted by `apply_rolling`; the source dispatches
on the strings `mean`/`sum`/`min`/`max`/`std` and raises on anything else
(constructor `other`).  As with `group_summarize`, the `std` aggregate is
a square root and lies outside the exact rational scalar model, so it is
not representable in this embedding. -/
inductive RollFn where
  | mean
  | sum
  | min
  | max
  | other (s : String)
deriving DecidableEq

def RollFn.name : RollFn → String
  | .mean => "mean"
  | .sum => "sum"
  | .min => "min"
  | .max => "max"
  | .other s => s

/-- `apply_rolling` (transforms.py): trailing window aggregate of size
`window` over one numeric column, written to `new_column` (default
`column_rolling_function`); positions before the first full window are
missing, and pandas' default `min_periods = window` makes any window
containing a missing value produce a missing result. -/
def apply_rolling (data : DataFrame) (column : String) (window : Nat)
    (function : RollFn) (new_column : Option String) : Except String DataFrame :=
  match run with
  | .ok d => .ok d
  | .error e => .error ("Rolling error: " ++ e)
where
  run : Except String DataFrame := do
    let newName := new_column.getD (column ++ "_rolling_" ++ function.name)
    let i ←
      match colIdx data.cols column with
      | some i => Except.ok i
      | none => Except.error (keyErr column)
    if window = 0 then
      Except.error "window must be an integer 0 or greater"
    else
      let cells := data.rows.map (fun r => r.getD i none)
      let vals ←
        match cells.mapM (fun c => match c with
          | none => some none
          | some v => (asNum v).map some) with
        | some vs => Except.ok vs
        | none => Except.error "No numeric types to aggregate"
      let agg (ws : List ℚ) : ℚ :=
        match function with
        | .mean => ws.foldl (· + ·) 0 / (window : ℚ)
        | .sum => ws.foldl (· + ·) 0
        | .min => match ws with | [] => 0 | h :: t => t.foldl Min.min h
        | .max => match ws with | [] => 0 | h :: t => t.foldl Max.max h
        | .other _ => 0
      match function with
      | .other s => Except.error ("Unknown rolling function: " ++ s)
      | _ =>
        let outCells := (List.range vals.length).map (fun j =>
          if j + 1 < window then none
          else
            match ((vals.drop (j + 1 - window)).take window).mapM id with
            | some ws => some (Value.num (agg ws))
            | none => none)
        Except.ok (setColumn data newName outCells)

/-- A pivot aggregate accepted by `apply_pivot` (the source's docstring
set `mean`/`sum`/`count`/`min`/`max`; other strings make pandas raise,
constructor `other`). -/
inductive PivotAgg where
  | mean
  | sum
  | count
  | min
  | max
  | other (s : String)
deriving DecidableEq

def PivotAgg.toAggFn : PivotAgg → Option AggFn
  | .mean => some .mean
  | .sum => some .sum
  | .count => some .count
  | .min => some .min
  | .max => some .max
  | .other _ => none

/-- Rendering of a scalar used as a pivoted column label. -/
def renderKey : Value → String
  | .num q => if q.den = 1 then toString q.num else toString q
  | .str s => s
  | .bool b => toString b

/-- Non-strict order on single scalars (for the sorted pivot axes). -/
def valLe (a b : Value) : Prop := cmpValue a b ≠ .gt

instance valLeDecidable : DecidableRel valLe :=
  fun a b => by unfold valLe; infer_instance

/-- `apply_pivot` (transforms.py): `data.pivot_table(index, columns,
values, aggfunc).reset_index()`.  Pandas semantics embedded: rows with a
missing index or column key are dropped, both axes come out sorted, each
cell aggregates the matching values and stays missing when nothing
matches. -/
def apply_pivot (data : DataFrame) (index : String) (columns : String)
    (values : String) (aggfunc : PivotAgg) : Except String DataFrame :=
  match run with
  | .ok d => .ok d
  | .error e => .error ("Pivot error: " ++ e)
where
  run : Except String DataFrame := do
    let ii ←
      match colIdx data.cols index with
      | some i => Except.ok i
      | none => Except.error (keyErr index)
    let ci ←
      match colIdx data.cols columns with
      | some i => Except.ok i
      | none => Except.error (keyErr columns)
    let vi ←
      match colIdx data.cols values with
      | some i => Except.ok i
      | none => Except.error (keyErr values)
    let f ←
      match aggfunc.toAggFn with
      | some f => Except.ok f
      | none => Except.error ("AttributeError: \x27SeriesGroupBy\x27 object has no attribute " ++
          keyErr (match aggfunc with | .other s => s | _ => ""))
    let keyed := data.rows.filterMap (fun r =>
      match r.getD ii none, r.getD ci none with
      | some ik, some ck => some (ik, ck, r.getD vi none)
      | _, _ => none)
    let ikeys := (distinctFirstSeen (keyed.map (·.1))).insertionSort valLe
    let ckeys := (distinctFirstSeen (keyed.map (·.2.1))).insertionSort valLe
    let outRows ← ikeys.mapM (fun ik => do
      let cells ← ckeys.mapM (fun ck => do
        let vals := (keyed.filter (fun t => t.1 = ik ∧ t.2.1 = ck)).filterMap (·.2.2)
        if vals.isEmpty then Except.ok none
        else aggValue f vals)
      Except.ok (some ik :: cells))
    Except.ok
      { cols := index :: ckeys.map renderKey
        rows := outRows
        index := List.range outRows.length |>.map Int.ofNat }

/-- A transform step: the tagged record dispatched by `apply_transforms`
(transforms.py).  Optional fields mirror the `transform.get(...)` reads of
the source; required fields mirror the `transform[...]` subscripts. -/
inductive Step where
  | filter (filter_expr : Expr)
  | group_summarize (group_by : List String) (aggregations : List (String × AggSpec))
  | sort (sort_by : List String) (ascending : Option AscSpec)
  | select (columns : List String)
  | rename (rename_map : List (String × String))
  | mutate (mutations : List (String × Expr))
  | drop_na (columns : Option (List String)) (how : Option String)
  | fill_na (fill_values : FillVals) (method : Option String)
  | sample (n : Option Nat) (frac : Option ℚ) (random_state : Option Int)
  | unique (columns : Option (List String))
  | rolling (column : String) (window : Nat) (function : Option RollFn)
      (new_column : Option String)
  | pivot (index : String) (columns : String) (values : String)
      (aggfunc : Option PivotAgg)
deriving DecidableEq

/-- The `type` tag of a step, as matched by `apply_transforms`. -/
def Step.kindName : Step → String
  | .filter _ => "filter"
  | .group_summarize _ _ => "group_summarize"
  | .sort _ _ => "sort"
  | .select _ => "select"
  | .rename _ => "rename"
  | .mutate _ => "mutate"
  | .drop_na _ _ => "drop_na"
  | .fill_na _ _ => "fill_na"
  | .sample _ _ _ => "sample"
  | .unique _ => "unique"
  | .rolling _ _ _ _ => "rolling"
  | .pivot _ _ _ _ => "pivot"

/-- The dispatch body of the `apply_transforms` loop: one step applied to
the current dataset, with the source's `transform.get(...)` defaults
(`ascending = True`, `how = "any"`, `random_state = 42`,
`function = "mean"`, `aggfunc = "mean"`). -/
def runStep (d : DataFrame) : Step → Except String DataFrame
  | .filter e => apply_filter d e
  | .group_summarize g a => apply_group_summarize d g a
  | .sort s a => apply_sort d s (a.getD (.single true))
  | .select cs => apply_select d cs
  | .rename m => apply_rename d m
  | .mutate m => apply_mutate d m
  | .drop_na cs how => apply_drop_na d cs (how.getD "any")
  | .fill_na fv m => apply_fill_na d fv m
  | .sample n frac rs => apply_sample d n frac (rs.getD 42)
  | .unique cs => apply_unique d cs
  | .rolling c w f nc => apply_rolling d c w (f.getD .mean) nc
  | .pivot i c v a => apply_pivot d i c v (a.getD .mean)

/-- The wrapper `apply_transforms` puts around the first failing step:
`Transform i+1 (kind) failed: cause` with the 1-based position. -/
def wrapStepError (i : Nat) (s : Step) (cause : String) : String :=
  "Transform " ++ toString (i + 1) ++ " (" ++ s.kindName ++ ") failed: " ++ cause

/-- The enumerated loop of `apply_transforms`, starting at 0-based
position `i`: apply each step in order to the running result, stopping at
the first failure and re-raising it wrapped with its 1-based position and
kind. -/
def applyTransformsFrom (i : Nat) (d : DataFrame) : List Step → Except String DataFrame
  | [] => .ok d
  | s :: rest =>
    match runStep d s with
    | .ok d2 => applyTransformsFrom (i + 1) d2 rest
    | .error e => .error (wrapStepError i s e)

/-- `apply_transforms` (transforms.py): copy the input, then run the
steps in list order. -/
def apply_transforms (data : DataFrame) (transforms : List Step) :
    Except String DataFrame :=
  applyTransformsFrom 0 data transforms

/-- A store of allocated dataframe values.  Python frames are heap
objects; a `Nat` reference indexes this store.  New frames produced by
pandas operations are modelled as fresh allocations, and the only
in-place writes the source performs (`result[col] = ...` in
`apply_mutate` and `apply_rolling`) are modelled as `write`s to the
freshly copied frame. -/
structure Store where
  frames : List DataFrame

def Store.alloc (σ : Store) (d : DataFrame) : Store × Nat :=
  ({ frames := σ.frames ++ [d] }, σ.frames.length)

def Store.read (σ : Store) (r : Nat) : Option DataFrame :=
  σ.frames[r]?

def Store.write (σ : Store) (r : Nat) (d : DataFrame) : Store :=
  { frames := σ.frames.set r d }

/-- Allocate the result of a pandas call that returns a brand-new frame
(`query`, `groupby(...).agg`, `sort_values`, `data[cols].copy()`,
`rename`, `dropna`, `fillna`, `sample`, `drop_duplicates`,
`pivot_table`); an exception leaves the store as it was. -/
def allocResult (σ : Store) (res : Except String DataFrame) : Store × Except String Nat :=
  match res with
  | .ok d2 => ((σ.alloc d2).1, .ok (σ.alloc d2).2)
  | .error e => (σ, .error e)

/-- The assignment loop of `apply_mutate`, at reference level: each
iteration reads the frame behind the copied reference, evaluates the
expression on it and writes the assigned column back in place. -/
def mutateLoopRef (σ : Store) (rc : Nat) : List (String × Expr) → Store × Except String Unit
  | [] => (σ, .ok ())
  | (name, e) :: rest =>
    match σ.read rc with
    | none => (σ, .error "invalid frame reference")
    | some cur =>
      match cur.rows.mapM (fun r => evalExpr cur.cols r e) with
      | .ok cells => mutateLoopRef (σ.write rc (setColumn cur name cells)) rc rest
      | .error msg =>
        (σ, .error ("Mutate error: " ++ msg ++
          "\n\nCheck your expression syntax for column \x27" ++ name ++ "\x27."))

/-- One dispatch of the `apply_transforms` loop at reference level,
mirroring which heap values each branch of the source reads, copies,
writes and returns. -/
def runStepRef (σ : Store) (r : Nat) (s : Step) : Store × Except String Nat :=
  match σ.read r with
  | none => (σ, .error "invalid frame reference")
  | some d =>
    match s with
    | .mutate muts =>
      -- result = data.copy(); result[col] = result.eval(expr) per mutation
      let a := σ.alloc d
      match mutateLoopRef a.1 a.2 muts with
      | (σ2, .ok _) => (σ2, .ok a.2)
      | (σ2, .error e) => (σ2, .error e)
    | .rolling c w f nc =>
      -- result = data.copy(); result[new_column] = <rolling series>
      let a := σ.alloc d
      match apply_rolling d c w (f.getD .mean) nc with
      | .ok d2 => (a.1.write a.2 d2, .ok a.2)
      | .error e => (a.1, .error e)
    | .fill_na fv m =>
      -- result = data.copy() (left unused), then fillna returns a new frame
      let a := σ.alloc d
      allocResult a.1 (apply_fill_na d fv m)
    | s2 => allocResult σ (runStep d s2)

/-- The enumerated pipeline loop at reference level. -/
def applyTransformsRefFrom (σ : Store) (rc : Nat) (i : Nat) :
    List Step → Store × Except String Nat
  | [] => (σ, .ok rc)
  | s :: rest =>
    match runStepRef σ rc s with
    | (σ2, .ok rc2) => applyTransformsRefFrom σ2 rc2 (i + 1) rest
    | (σ2, .error e) => (σ2, .error (wrapStepError i s e))

/-- `apply_transforms` at reference level: `result = data.copy()`
allocates a fresh frame, then the steps run in order on the running
reference. -/
def apply_transforms_ref (σ : Store) (r : Nat) (ts : List Step) :
    Store × Except String Nat :=
  match σ.read r with
  | none => (σ, .error "invalid frame reference")
  | some d =>
    let a := σ.alloc d
    applyTransformsRefFrom a.1 a.2 0 ts

theorem Store.read_alloc_of_lt {σ : Store} {q : Nat} (d : DataFrame)
    (h : q < σ.frames.length) : (σ.alloc d).1.read q = σ.read q := by
  simp only [Store.alloc, Store.read]
  rw [List.getElem?_append_left h]

theorem Store.length_alloc (σ : Store) (d : DataFrame) :
    (σ.alloc d).1.frames.length = σ.frames.length + 1 := by
  simp [Store.alloc]

theorem Store.read_write_of_ne {σ : Store} {q w : Nat} (d : DataFrame)
    (h : q ≠ w) : (σ.write w d).read q = σ.read q := by
  simp only [Store.write, Store.read]
  rw [List.getElem?_set_ne (fun hc => h hc.symm)]


theorem Store.length_write (σ : Store) (w : Nat) (d : DataFrame) :
    (σ.write w d).frames.length = σ.frames.length := by
  simp [Store.write]

theorem allocResult_preserves {σ : Store} {q : Nat} (res : Except String DataFrame)
    (h : q < σ.frames.length) :
    (allocResult σ res).1.read q = σ.read q ∧
    σ.frames.length ≤ (allocResult σ res).1.frames.length ∧
    ∀ r2, (allocResult σ res).2 = .ok r2 → σ.frames.length ≤ r2 := by
  match res with
  | .ok d2 =>
    refine ⟨Store.read_alloc_of_lt d2 h, ?_, ?_⟩
    · show σ.frames.length ≤ (σ.alloc d2).1.frames.length
      rw [Store.length_alloc]
      omega
    · intro r2 hr2
      simp only [allocResult] at hr2
      cases hr2
      exact le_refl _
  | .error e => exact ⟨rfl, le_refl _, fun r2 hr2 => by simp [allocResult] at hr2⟩

theorem mutateLoopRef_preserves {q w : Nat} (hne : q ≠ w) :
    ∀ (muts : List (String × Expr)) (σ : Store),
    (mutateLoopRef σ w muts).1.read q = σ.read q ∧
    (mutateLoopRef σ w muts).1.frames.length = σ.frames.length := by
  intro muts
  induction muts with
  | nil => intro σ; exact ⟨rfl, rfl⟩
  | cons m rest ih =>
    intro σ
    obtain ⟨name, e⟩ := m
    cases hr : σ.read w with
    | none =>
      simp only [mutateLoopRef, hr]
      exact ⟨trivial, trivial⟩
    | some cur =>
      cases hm : cur.rows.mapM (fun r => evalExpr cur.cols r e) with
      | ok cells =>
        have hw := ih (σ.write w (setColumn cur name cells))
        simp only [mutateLoopRef, hr, hm]
        constructor
        · rw [hw.1, Store.read_write_of_ne _ hne]
        · rw [hw.2, Store.length_write]
      | error msg =>
        simp only [mutateLoopRef, hr, hm]
        exact ⟨trivial, trivial⟩

theorem runStepRef_preserves {σ : Store} {r q : Nat} (s : Step)
    (h : q < σ.frames.length) :
    (runStepRef σ r s).1.read q = σ.read q ∧
    σ.frames.length ≤ (runStepRef σ r s).1.frames.length ∧
    ∀ r2, (runStepRef σ r s).2 = .ok r2 → σ.frames.length ≤ r2 := by
  have hne : q ≠ σ.frames.length := Nat.ne_of_lt h
  cases hr : σ.read r with
  | none =>
    simp only [runStepRef, hr]
    exact ⟨trivial, le_refl _, fun r2 hr2 => by cases hr2⟩
  | some d =>
    cases s with
    | mutate muts =>
      simp only [runStepRef, hr]
      have hml := mutateLoopRef_preserves (w := (σ.alloc d).2) hne muts (σ.alloc d).1
      cases hm : mutateLoopRef (σ.alloc d).1 (σ.alloc d).2 muts with
      | mk σ2 res =>
        rw [hm] at hml
        have hread : σ2.read q = σ.read q := by
          rw [hml.1]
          exact Store.read_alloc_of_lt d h
        have hlen : σ.frames.length ≤ σ2.frames.length := by
          rw [hml.2, Store.length_alloc]
          omega
        cases res with
        | ok u =>
          refine ⟨hread, hlen, ?_⟩
          intro r2 hr2
          cases hr2
          exact le_refl _
        | error e => exact ⟨hread, hlen, fun r2 hr2 => by cases hr2⟩
    | rolling c w f nc =>
      cases happ : apply_rolling d c w (f.getD .mean) nc with
      | ok d2 =>
        simp only [runStepRef, hr, happ]
        refine ⟨?_, ?_, ?_⟩
        · rw [show (σ.alloc d).2 = σ.frames.length from rfl,
            Store.read_write_of_ne _ hne]
          exact Store.read_alloc_of_lt d h
        · rw [Store.length_write, Store.length_alloc]
          omega
        · intro r2 hr2
          cases hr2
          exact le_refl _
      | error e =>
        simp only [runStepRef, hr, happ]
        refine ⟨Store.read_alloc_of_lt d h, ?_, fun r2 hr2 => by cases hr2⟩
        rw [Store.length_alloc]
        omega
    | fill_na fv m =>
      simp only [runStepRef, hr]
      have h2 : q < (σ.alloc d).1.frames.length := by
        rw [Store.length_alloc]
        omega
      have hal := allocResult_preserves (σ := (σ.alloc d).1) (apply_fill_na d fv m) h2
      refine ⟨hal.1.trans (Store.read_alloc_of_lt d h), ?_, ?_⟩
      · calc σ.frames.length ≤ (σ.alloc d).1.frames.length := by
              rw [Store.length_alloc]; omega
          _ ≤ _ := hal.2.1
      · intro r2 hr2
        have := hal.2.2 r2 hr2
        calc σ.frames.length ≤ (σ.alloc d).1.frames.length := by
              rw [Store.length_alloc]; omega
          _ ≤ r2 := this
    | filter e =>
      simp only [runStepRef, hr]
      exact allocResult_preserves _ h
    | group_summarize g a =>
      simp only [runStepRef, hr]
      exact allocResult_preserves _ h
    | sort sb a =>
      simp only [runStepRef, hr]
      exact allocResult_preserves _ h
    | select cs =>
      simp only [runStepRef, hr]
      exact allocResult_preserves _ h
    | rename m =>
      simp only [runStepRef, hr]
      exact allocResult_preserves _ h
    | drop_na cs how =>
      simp only [runStepRef, hr]
      exact allocResult_preserves _ h
    | sample n frac rs =>
      simp only [runStepRef, hr]
      exact allocResult_preserves _ h
    | unique cs =>
      simp only [runStepRef, hr]
      exact allocResult_preserves _ h
    | pivot i c v a =>
      simp only [runStepRef, hr]
      exact allocResult_preserves _ h

theorem applyTransformsRefFrom_preserves {q : Nat} :
    ∀ (ts : List Step) (σ : Store) (rc i : Nat), q < σ.frames.length →
    (applyTransformsRefFrom σ rc i ts).1.read q = σ.read q ∧
    σ.frames.length ≤ (applyTransformsRefFrom σ rc i ts).1.frames.length ∧
    ∀ r2, (applyTransformsRefFrom σ rc i ts).2 = .ok r2 →
      r2 = rc ∨ σ.frames.length ≤ r2 := by
  intro ts
  induction ts with
  | nil =>
    intro σ rc i h
    refine ⟨rfl, le_refl _, ?_⟩
    intro r2 hr2
    cases hr2
    exact Or.inl rfl
  | cons s rest ih =>
    intro σ rc i h
    have hstep := runStepRef_preserves (σ := σ) (r := rc) s h
    cases hrs : runStepRef σ rc s with
    | mk σ2 res =>
      rw [hrs] at hstep
      cases res with
      | ok rc2 =>
        simp only [applyTransformsRefFrom, hrs]
        have h2 : q < σ2.frames.length := lt_of_lt_of_le h hstep.2.1
        have hrec := ih σ2 rc2 (i + 1) h2
        refine ⟨hrec.1.trans hstep.1, le_trans hstep.2.1 hrec.2.1, ?_⟩
        intro r2 hr2
        rcases hrec.2.2 r2 hr2 with hc | hc
        · subst hc
          exact Or.inr (hstep.2.2 r2 rfl)
        · exact Or.inr (le_trans hstep.2.1 hc)
      | error e =>
        simp only [applyTransformsRefFrom, hrs]
        exact ⟨hstep.1, hstep.2.1, fun r2 hr2 => by cases hr2⟩

/-- ASCII lowercasing (Python `str.lower` on the ASCII names used by the
source). -/
def strLower (s : String) : String := String.mk (s.data.map Char.toLower)

/-- Contiguous-sublist test on lists. -/
def listIsInfixOf {α : Type} [BEq α] (needle hay : List α) : Bool :=
  match hay with
  | [] => needle.isEmpty
  | _ :: t => needle.isPrefixOf hay || listIsInfixOf needle t

/-- Substring test (Python `needle in hay`). -/
def strContains (hay needle : String) : Bool := listIsInfixOf needle.data hay.data

/-- Suffix test (Python `str.endswith`). -/
def strEndsWith (s t : String) : Bool := t.data.isSuffixOf s.data

/-- Truthiness of an optional string (Python `if s:`): absent and empty
are both falsy. -/
def truthy : Option String → Bool
  | none => false
  | some s => !s.isEmpty

/-- Computable lexicographic comparison of character lists (the order of
Python `sorted` on the ASCII names used by the source). -/
def charListLe : List Char → List Char → Bool
  | [], _ => true
  | _ :: _, [] => false
  | a :: as, b :: bs =>
    if a < b then true else if b < a then false else charListLe as bs

/-- Lexicographic string order as a decidable relation (for `sorted`). -/
def strLeP (a b : String) : Prop := charListLe a.data b.data = true

instance strLePDecidable : DecidableRel strLeP :=
  fun a b => by unfold strLeP; infer_instance

/-- `GEOM_MAP` (plot_builder.py): the closed geometry vocabulary, in the
dictionary's insertion order.  The plotnine constructor values are opaque
to the resolution logic; only the keys matter to it. -/
def GEOM_MAP : List String :=
  ["point", "line", "bar", "col", "histogram", "boxplot", "violin", "area",
   "density", "smooth", "jitter", "tile", "text", "errorbar", "hline",
   "vline", "abline", "path", "polygon", "ribbon"]

/-- A layer descriptor (`GeomConfig` in schemas.py): a geometry kind plus
an open parameter bag (passed through verbatim to the renderer). -/
structure GeomConfig where
  type : String
  params : List (String × String)
deriving DecidableEq

/-- A resolved layer: the looked-up geometry kind applied to the bag. -/
structure ResolvedGeom where
  kind : String
  params : List (String × String)
deriving DecidableEq

/-- `_build_geom` (plot_builder.py): case-insensitive lookup of the
geometry kind in `GEOM_MAP`; an unknown kind raises `PlotBuildError`
listing the vocabulary in dictionary order (`", ".join(GEOM_MAP.keys())`). -/
def build_geom (g : GeomConfig) : Except String ResolvedGeom :=
  let geom_type := strLower g.type
  if GEOM_MAP.contains geom_type then
    .ok { kind := geom_type, params := g.params }
  else
    .error ("Unknown geom type: " ++ geom_type ++ ". Available: " ++
      String.intercalate ", " GEOM_MAP)

/-- `suggest_geom_type`/`format_geom_error` (error_utils.py) shape of a
suggestion-enriched geometry error: it lists the vocabulary sorted
(`", ".join(sorted(available_geoms))`).  Only the sorted-vocabulary text
is needed here, to compare with what `build_geom` actually raises. -/
def sortedGeomVocab : String :=
  String.intercalate ", " (GEOM_MAP.insertionSort strLeP)

/-- A facet descriptor (`FacetConfig` in schemas.py). -/
structure FacetConfig where
  type : String
  facets : Option String
  rows : Option String
  cols : Option String
  params : List (String × String)
deriving DecidableEq

/-- A resolved facet: `facet_wrap` or `facet_grid` applied to a formula
and the passthrough parameter bag. -/
inductive ResolvedFacet where
  | wrap (formula : String) (params : List (String × String))
  | grid (formula : String) (params : List (String × String))
deriving DecidableEq

/-- `_build_facet` (plot_builder.py): `wrap` needs a (truthy) faceting
expression; `grid` builds `rows ~ cols`, `rows ~ .` or `. ~ cols` in that
precedence order and raises when both are absent. -/
def build_facet (f : FacetConfig) : Except String ResolvedFacet :=
  if f.type = "wrap" then
    if truthy f.facets then .ok (.wrap (f.facets.getD "") f.params)
    else .error "facet_wrap requires \x27facets\x27 parameter"
  else if f.type = "grid" then
    if truthy f.rows && truthy f.cols then
      .ok (.grid (f.rows.getD "" ++ " ~ " ++ f.cols.getD "") f.params)
    else if truthy f.rows then
      .ok (.grid (f.rows.getD "" ++ " ~ .") f.params)
    else if truthy f.cols then
      .ok (.grid (". ~ " ++ f.cols.getD "") f.params)
    else .error "facet_grid requires \x27rows\x27 or \x27cols\x27 parameter"
  else .error ("Unknown facet type: " ++ f.type)
def COLORBLIND_SAFE : List (String × List String) := [
  ("okabe_ito", ["#E69F00", "#56B4E9", "#009E73", "#F0E442", "#0072B2", "#D55E00", "#CC79A7"]),
  ("tol_bright", ["#4477AA", "#EE6677", "#228833", "#CCBB44", "#66CCEE", "#AA3377", "#BBBBBB"]),
  ("tol_muted", ["#332288", "#88CCEE", "#44AA99", "#117733", "#999933", "#DDCC77", "#CC6677", "#882255", "#AA4499"])
]

def SCIENTIFIC : List (String × List String) := [
  ("viridis", ["#440154", "#482777", "#3E4989", "#31688E", "#26828E", "#1F9E89", "#35B779", "#6DCD59", "#B4DE2C", "#FDE724"]),
  ("plasma", ["#0D0887", "#4C02A1", "#7E03A8", "#A92395", "#CC4678", "#E56B5D", "#F89441", "#FEC328", "#F0F921"]),
  ("inferno", ["#000004", "#1B0C41", "#4A0C6B", "#781C6D", "#A52C60", "#CF4446", "#ED6925", "#FB9A06", "#F7D13D", "#FCFFA4"]),
  ("magma", ["#000004", "#180F3E", "#451077", "#721F81", "#9F2F7F", "#CD4071", "#F1605D", "#FD9668", "#FEC287", "#FCFDBF"])
]

def CATEGORICAL : List (String × List String) := [
  ("set1", ["#E41A1C", "#377EB8", "#4DAF4A", "#984EA3", "#FF7F00", "#FFFF33", "#A65628", "#F781BF", "#999999"]),
  ("set2", ["#66C2A5", "#FC8D62", "#8DA0CB", "#E78AC3", "#A6D854", "#FFD92F", "#E5C494", "#B3B3B3"]),
  ("set3", ["#8DD3C7", "#FFFFB3", "#BEBADA", "#FB8072", "#80B1D3", "#FDB462", "#B3DE69", "#FCCDE5", "#D9D9D9", "#BC80BD", "#CCEBC5", "#FFED6F"]),
  ("tableau10", ["#4E79A7", "#F28E2B", "#E15759", "#76B7B2", "#59A14F", "#EDC948", "#B07AA1", "#FF9DA7", "#9C755F", "#BAB0AC"])
]

def CORPORATE : List (String × List String) := [
  ("corporate_blue", ["#003f5c", "#2f4b7c", "#665191", "#a05195", "#d45087", "#f95d6a", "#ff7c43", "#ffa600"]),
  ("professional", ["#1f77b4", "#ff7f0e", "#2ca02c", "#d62728", "#9467bd", "#8c564b", "#e377c2", "#7f7f7f"]),
  ("modern", ["#264653", "#2A9D8F", "#E9C46A", "#F4A261", "#E76F51"])
]

def SEQUENTIAL : List (String × List String) := [
  ("blues", ["#F7FBFF", "#DEEBF7", "#C6DBEF", "#9ECAE1", "#6BAED6", "#4292C6", "#2171B5", "#08519C", "#08306B"]),
  ("greens", ["#F7FCF5", "#E5F5E0", "#C7E9C0", "#A1D99B", "#74C476", "#41AB5D", "#238B45", "#006D2C", "#00441B"]),
  ("reds", ["#FFF5F0", "#FEE0D2", "#FCBBA1", "#FC9272", "#FB6A4A", "#EF3B2C", "#CB181D", "#A50F15", "#67000D"]),
  ("oranges", ["#FFF5EB", "#FEE6CE", "#FDD0A2", "#FDAE6B", "#FD8D3C", "#F16913", "#D94801", "#A63603", "#7F2704"])
]

def DIVERGING : List (String × List String) := [
  ("red_blue", ["#B2182B", "#D6604D", "#F4A582", "#FDDBC7", "#F7F7F7", "#D1E5F0", "#92C5DE", "#4393C3", "#2166AC"]),
  ("red_green", ["#D73027", "#F46D43", "#FDAE61", "#FEE08B", "#FFFFBF", "#D9EF8B", "#A6D96A", "#66BD63", "#1A9850"]),
  ("purple_orange", ["#7F3B08", "#B35806", "#E08214", "#FDB863", "#FEE0B6", "#F7F7F7", "#D8DAEB", "#B2ABD2", "#8073AC", "#542788"])
]

/-- `ALL_PALETTES` (palettes.py): every palette under its fully-qualified
`category_name` key, in the source's category and insertion order. -/
def ALL_PALETTES : List (String × List String) :=
  COLORBLIND_SAFE.map (fun p => ("colorblind_safe_" ++ p.1, p.2)) ++
  SCIENTIFIC.map (fun p => ("scientific_" ++ p.1, p.2)) ++
  CATEGORICAL.map (fun p => ("categorical_" ++ p.1, p.2)) ++
  CORPORATE.map (fun p => ("corporate_" ++ p.1, p.2)) ++
  SEQUENTIAL.map (fun p => ("sequential_" ++ p.1, p.2)) ++
  DIVERGING.map (fun p => ("diverging_" ++ p.1, p.2))

/-- The fallback loop of `get_palette`: the first registry entry whose
fully-qualified name ends with `"_" ++ name`. -/
def findSuffixPalette (name : String) : List (String × List String) → Option (List String)
  | [] => none
  | p :: rest =>
    if strEndsWith p.1 ("_" ++ name) then some p.2
    else findSuffixPalette name rest

/-- `get_palette` (palettes.py): exact fully-qualified lookup first, then
the first suffix match in registry order, else a `KeyError` naming the
requested palette. -/
def get_palette (palette_name : String) : Except String (List String) :=
  match ALL_PALETTES.lookup palette_name with
  | some v => .ok v
  | none =>
    match findSuffixPalette palette_name ALL_PALETTES with
    | some v => .ok v
    | none =>
      .error ("Palette \x27" ++ palette_name ++
        "\x27 not found. Use list_palettes() to see available palettes.")

/-- A JSON-shaped configuration value (the open dictionaries that
template configurations, overrides and the merged plot configuration are
made of). -/
inductive J where
  | null
  | jb (b : Bool)
  | jn (q : ℚ)
  | js (s : String)
  | arr (xs : List J)
  | obj (fields : List (String × J))

/-- A preset template (templates.py): a description, a partial plot
configuration fragment, and the required/suggested aesthetic role sets. -/
structure Template where
  description : String
  config : List (String × J)
  required_aesthetics : List String
  suggested_aesthetics : List String
/-- `TEMPLATES` (templates.py): the nine preset templates, verbatim. -/
def TEMPLATES : List (String × Template) := [
  ("time_series",
    { description := "Line plot optimized for time-based data with date formatting"
      config :=
       [("geoms", .arr [.obj [("type", .js "line"), ("params", .obj [("size", .jn 1)])]]),
        ("scales", .arr [.obj [("aesthetic", .js "x"), ("type", .js "datetime"), ("params", .obj [])]]),
        ("theme", .obj [("base", .js "minimal"), ("customizations", .obj [("figure_size", .arr [.jn 12, .jn 6])])])]
      required_aesthetics := ["x", "y"]
      suggested_aesthetics := ["color", "group"] }),
  ("scatter_with_trend",
    { description := "Scatter plot with linear regression trend line and confidence interval"
      config :=
       [("geoms", .arr [.obj [("type", .js "point"), ("params", .obj [("size", .jn 2), ("alpha", .jn (3 / 5))])], .obj [("type", .js "smooth"), ("params", .obj [("method", .js "lm"), ("se", .jb true)])]]),
        ("theme", .obj [("base", .js "minimal")])]
      required_aesthetics := ["x", "y"]
      suggested_aesthetics := ["color"] }),
  ("distribution_comparison",
    { description := "Violin plot for comparing distributions across groups"
      config :=
       [("geoms", .arr [.obj [("type", .js "violin"), ("params", .obj [("alpha", .jn (7 / 10))])], .obj [("type", .js "jitter"), ("params", .obj [("width", .jn (1 / 10)), ("alpha", .jn (3 / 10)), ("size", .jn 1)])]]),
        ("theme", .obj [("base", .js "bw")])]
      required_aesthetics := ["x", "y"]
      suggested_aesthetics := ["fill", "color"] }),
  ("category_breakdown",
    { description := "Bar chart showing counts or values by category"
      config :=
       [("geoms", .arr [.obj [("type", .js "col"), ("params", .obj [])]]),
        ("theme", .obj [("base", .js "minimal"), ("customizations", .obj [("legend_position", .js "bottom")])]),
        ("coords", .obj [("type", .js "flip"), ("params", .obj [])])]
      required_aesthetics := ["x", "y"]
      suggested_aesthetics := ["fill"] }),
  ("correlation_heatmap",
    { description := "Heatmap for visualizing correlations or relationships"
      config :=
       [("geoms", .arr [.obj [("type", .js "tile"), ("params", .obj [])]]),
        ("scales", .arr [.obj [("aesthetic", .js "fill"), ("type", .js "gradient"), ("params", .obj [("low", .js "blue"), ("high", .js "red")])]]),
        ("theme", .obj [("base", .js "minimal"), ("customizations", .obj [("figure_size", .arr [.jn 10, .jn 8])])])]
      required_aesthetics := ["x", "y", "fill"]
      suggested_aesthetics := [] }),
  ("boxplot_comparison",
    { description := "Boxplot with individual points for detailed distribution comparison"
      config :=
       [("geoms", .arr [.obj [("type", .js "boxplot"), ("params", .obj [("alpha", .jn (7 / 10))])], .obj [("type", .js "jitter"), ("params", .obj [("width", .jn (1 / 5)), ("alpha", .jn (2 / 5)), ("size", .jn 1)])]]),
        ("theme", .obj [("base", .js "bw")])]
      required_aesthetics := ["x", "y"]
      suggested_aesthetics := ["fill", "color"] }),
  ("multi_line",
    { description := "Multiple line plots for comparing trends across categories"
      config :=
       [("geoms", .arr [.obj [("type", .js "line"), ("params", .obj [("size", .jn (6 / 5))])]]),
        ("theme", .obj [("base", .js "minimal"), ("customizations", .obj [("figure_size", .arr [.jn 12, .jn 6]), ("legend_position", .js "right")])])]
      required_aesthetics := ["x", "y", "color"]
      suggested_aesthetics := ["linetype"] }),
  ("histogram_with_density",
    { description := "Histogram overlaid with kernel density curve"
      config :=
       [("geoms", .arr [.obj [("type", .js "histogram"), ("params", .obj [("alpha", .jn (7 / 10)), ("bins", .jn 30)])], .obj [("type", .js "density"), ("params", .obj [("alpha", .jn 0)])]]),
        ("theme", .obj [("base", .js "minimal")])]
      required_aesthetics := ["x"]
      suggested_aesthetics := ["fill", "color"] }),
  ("before_after",
    { description := "Side-by-side comparison of before and after measurements"
      config :=
       [("geoms", .arr [.obj [("type", .js "point"), ("params", .obj [("size", .jn 3)])], .obj [("type", .js "line"), ("params", .obj [("alpha", .jn (1 / 2))])]]),
        ("theme", .obj [("base", .js "bw")]),
        ("facets", .obj [("type", .js "wrap"), ("params", .obj [("ncol", .jn 2)])])]
      required_aesthetics := ["x", "y"]
      suggested_aesthetics := ["group", "color"] })
]

/-- A template-expansion failure (`KeyError` / `ValueError` raised by
templates.py): unknown template name (with the sorted list of known
names), or missing required aesthetics (with the required list and the
missing subset; the Python `set` difference is modelled as the required
roles not provided, in required order). -/
inductive TemplateErr where
  | unknown (template_name : String) (available : List String)
  | missingAes (template_name : String) (required : List String) (missing : List String)
deriving DecidableEq

/-- `get_template` (templates.py): registry lookup; an unknown name
raises with all known template names, sorted. -/
def get_template (template_name : String) : Except TemplateErr Template :=
  match TEMPLATES.lookup template_name with
  | some t => .ok t
  | none =>
    .error (.unknown template_name ((TEMPLATES.map (·.1)).insertionSort strLeP))

/-- Python `dict` insertion/update of one key: an existing key keeps its
position and gets the new value, a new key is appended. -/
def dictInsert (d : List (String × J)) (k : String) (v : J) : List (String × J) :=
  if d.any (fun p => p.1 = k) then d.map (fun p => if p.1 = k then (k, v) else p)
  else d ++ [(k, v)]

/-- Python `dict.update`: shallow top-level key replacement. -/
def dictUpdate (d u : List (String × J)) : List (String × J) :=
  u.foldl (fun acc p => dictInsert acc p.1 p.2) d

/-- The aesthetics mapping as the configuration value it is stored under
(`"aes": aes`). -/
def aesJ (aes : List (String × String)) : J :=
  .obj (aes.map (fun kv => (kv.1, J.js kv.2)))

/-- `apply_template` (templates.py): look the template up, check the
required aesthetic roles against the provided mapping, then build
`data_source`/`aes` overlaid with the template's config fragment,
finally overlaid with the (truthy) overrides by shallow key replacement. -/
def apply_template (template_name : String) (data_source : J)
    (aes : List (String × String)) (overrides : Option (List (String × J))) :
    Except TemplateErr (List (String × J)) :=
  match get_template template_name with
  | .error e => .error e
  | .ok template =>
    let required := template.required_aesthetics
    let missing := required.filter (fun r => !(aes.any (fun kv => kv.1 = r)))
    if missing.isEmpty then
      let config := dictUpdate [("data_source", data_source), ("aes", aesJ aes)]
        template.config
      match overrides with
      | some ov => if ov.isEmpty then .ok config else .ok (dictUpdate config ov)
      | none => .ok config
    else
      .error (.missingAes template_name required missing)

/-- The goal-based refinement of `suggest_template` (templates.py): the
lowercased goal is matched against the fixed keyword groups in order and
the candidate list is filtered accordingly; with no matching keyword the
list is kept unfiltered. -/
def goalFilter (goal : Option String) (suggestions : List String) : List String :=
  match goal with
  | none => suggestions
  | some g =>
    if g.isEmpty then suggestions
    else
      let gl := strLower g
      if strContains gl "trend" || strContains gl "time" then
        suggestions.filter (fun s => strContains s "time" || strContains s "line")
      else if strContains gl "compare" || strContains gl "comparison" then
        suggestions.filter (fun s => strContains s "comparison" || strContains s "boxplot")
      else if strContains gl "distribution" then
        suggestions.filter (fun s => strContains s "distribution" || strContains s "histogram")
      else if strContains gl "correlation" || strContains gl "relationship" then
        suggestions.filter (fun s => strContains s "correlation" || strContains s "scatter")
      else suggestions

/-- The rule-generated candidate list of `suggest_template`, in the
source's append order. -/
def suggestCandidates (num_numeric num_categorical : Nat) (has_time : Bool) :
    List String :=
  (if has_time ∧ 1 ≤ num_numeric then
    ["time_series"] ++ (if 1 ≤ num_categorical then ["multi_line"] else [])
   else []) ++
  (if 1 ≤ num_categorical ∧ 1 ≤ num_numeric then
    ["distribution_comparison", "boxplot_comparison"]
   else []) ++
  (if 2 ≤ num_numeric then
    ["scatter_with_trend"] ++ (if 3 ≤ num_numeric then ["correlation_heatmap"] else [])
   else []) ++
  (if 1 ≤ num_numeric ∧ num_categorical = 0 then ["histogram_with_density"] else []) ++
  (if 1 ≤ num_categorical then ["category_breakdown"] else [])

/-- `suggest_template` (templates.py): rule-generated candidates, the
goal-based refinement, duplicate removal keeping first occurrences, and
the cap at the top 5. -/
def suggest_template (num_numeric num_categorical : Nat) (has_time : Bool)
    (goal : Option String) : List String :=
  (distinctFirstSeen
    (goalFilter goal (suggestCandidates num_numeric num_categorical has_time))).take 5

/-- Prefix test (Python `str.startswith`). -/
def strStartsWith (s t : String) : Bool := t.data.isPrefixOf s.data

/-- Claim C10: the sample step is deterministic even when the caller
omits `random_state`: both the `transform.get("random_state", 42)` read
in `apply_transforms` and the `random_state: int = 42` parameter default
of `apply_sample` pin the seed to 42, so a sample step without an
explicit seed behaves exactly like one seeded with 42 (and hence two
runs on the same input produce identical output datasets). -/
theorem sample_default_seed_42 (d : DataFrame) (n : Option Nat) (frac : Option ℚ) :
    runStep d (.sample n frac none) = runStep d (.sample n frac (some 42)) ∧
    runStep d (.sample n frac none) = apply_sample d n frac 42 ∧
    apply_transforms d [.sample n frac none] =
      apply_transforms d [.sample n frac (some 42)] :=
  ⟨rfl, rfl, rfl⟩

/-- Claim C4, counterexample: for the unknown geometry kind `ponit`,
layer resolution (`_build_geom`) raises a plain error listing the
vocabulary in dictionary (insertion) order; the message does not contain
the sorted vocabulary, nor a `Did you mean` suggestion naming `point`:
the suggestion-enriched formatter of error_utils.py is never invoked by
`_build_geom`. -/
theorem geom_ponit_no_suggestion :
    build_geom { type := "ponit", params := [] } =
      .error ("Unknown geom type: ponit. Available: point, line, bar, col, " ++
        "histogram, boxplot, violin, area, density, smooth, jitter, tile, " ++
        "text, errorbar, hline, vline, abline, path, polygon, ribbon") ∧
    strContains ("Unknown geom type: ponit. Available: point, line, bar, col, " ++
      "histogram, boxplot, violin, area, density, smooth, jitter, tile, " ++
      "text, errorbar, hline, vline, abline, path, polygon, ribbon")
      sortedGeomVocab = false ∧
    strContains ("Unknown geom type: ponit. Available: point, line, bar, col, " ++
      "histogram, boxplot, violin, area, density, smooth, jitter, tile, " ++
      "text, errorbar, hline, vline, abline, path, polygon, ribbon")
      "Did you mean" = false := by
  refine ⟨rfl, by decide, by decide⟩

/-- Claim C4, amended: for every geometry kind whose lowercased form is
not in the closed vocabulary, layer resolution fails with an error
naming the lowercased kind and listing the full vocabulary in registry
(insertion) order, with no fuzzy-match suggestion attached. -/
theorem geom_unknown_kind_error (g : GeomConfig)
    (h : GEOM_MAP.contains (strLower g.type) = false) :
    build_geom g = .error ("Unknown geom type: " ++ strLower g.type ++
      ". Available: " ++ String.intercalate ", " GEOM_MAP) := by
  have h2 : strLower g.type ∉ GEOM_MAP := by simpa using h
  simp [build_geom, h2]

/-- Claim C4, amended, witness at the concrete kind `ponit`. -/
theorem geom_unknown_kind_error_witness :
    build_geom { type := "ponit", params := [] } =
      .error ("Unknown geom type: " ++ strLower "ponit" ++ ". Available: " ++
        String.intercalate ", " GEOM_MAP) :=
  geom_unknown_kind_error { type := "ponit", params := [] } (by decide)

/-- Claim C7: grid facet resolution builds the combined expression
`rows ~ cols` when both are given (both-given takes precedence),
`rows ~ .` with only a row expression, `. ~ cols` with only a column
expression, and fails when neither is given. -/
theorem facet_grid_combined_expression (r c : String) (fc ro co : Option String)
    (params : List (String × String))
    (hr : r.isEmpty = false) (hc : c.isEmpty = false)
    (hro : truthy ro = false) (hco : truthy co = false) :
    build_facet { type := "grid", facets := fc, rows := some r, cols := some c,
                  params := params } = .ok (.grid (r ++ " ~ " ++ c) params) ∧
    build_facet { type := "grid", facets := fc, rows := some r, cols := co,
                  params := params } = .ok (.grid (r ++ " ~ .") params) ∧
    build_facet { type := "grid", facets := fc, rows := ro, cols := some c,
                  params := params } = .ok (.grid (". ~ " ++ c) params) ∧
    build_facet { type := "grid", facets := fc, rows := ro, cols := co,
                  params := params } =
      .error "facet_grid requires \x27rows\x27 or \x27cols\x27 parameter" := by
  have hr2 : truthy (some r) = true := by simp [truthy, hr]
  have hc2 : truthy (some c) = true := by simp [truthy, hc]
  refine ⟨?_, ?_, ?_, ?_⟩ <;>
    simp [build_facet, hr2, hc2, hro, hco]

/-- Claim C7, witness at `rows = "a"`, `cols = "b"`. -/
theorem facet_grid_combined_expression_witness :
    build_facet { type := "grid", facets := none, rows := some "a",
                  cols := some "b", params := [] } = .ok (.grid "a ~ b" []) ∧
    build_facet { type := "grid", facets := none, rows := some "a",
                  cols := none, params := [] } = .ok (.grid "a ~ ." []) ∧
    build_facet { type := "grid", facets := none, rows := none,
                  cols := some "b", params := [] } = .ok (.grid ". ~ b" []) ∧
    build_facet { type := "grid", facets := none, rows := none, cols := none,
                  params := [] } =
      .error "facet_grid requires \x27rows\x27 or \x27cols\x27 parameter" :=
  facet_grid_combined_expression "a" "b" none none none []
    (by decide) (by decide) (by decide) (by decide)

theorem findSuffixPalette_eq_find? (name : String) :
    ∀ l : List (String × List String),
    findSuffixPalette name l =
      (l.find? (fun p => strEndsWith p.1 ("_" ++ name))).map (·.2) := by
  intro l
  induction l with
  | nil => rfl
  | cons p rest ih =>
    by_cases h : strEndsWith p.1 ("_" ++ name) = true
    · simp [findSuffixPalette, List.find?, h]
    · simp only [Bool.not_eq_true] at h
      simp [findSuffixPalette, List.find?, h, ih]

/-- Claim C6: palette lookup returns the sequence under the exact
fully-qualified name when present, otherwise the value of the first
registry entry (in registry order) whose fully-qualified name ends with
an underscore followed by the requested name, otherwise an error naming
the requested palette; `get("viridis")` and `get("scientific_viridis")`
return identical sequences, of length 10, whose first entry starts with
a `#`. -/
theorem palette_lookup_order :
    (∀ name v, ALL_PALETTES.lookup name = some v → get_palette name = .ok v) ∧
    (∀ name v, ALL_PALETTES.lookup name = none →
      ALL_PALETTES.find? (fun p => strEndsWith p.1 ("_" ++ name)) = some v →
      get_palette name = .ok v.2) ∧
    (∀ name, ALL_PALETTES.lookup name = none →
      ALL_PALETTES.find? (fun p => strEndsWith p.1 ("_" ++ name)) = none →
      get_palette name = .error ("Palette \x27" ++ name ++
        "\x27 not found. Use list_palettes() to see available palettes.")) ∧
    get_palette "viridis" = get_palette "scientific_viridis" ∧
    (∃ cs, get_palette "scientific_viridis" = .ok cs ∧ cs.length = 10 ∧
      strStartsWith (cs.headD "") "#" = true) := by
  refine ⟨?_, ?_, ?_, rfl, ?_⟩
  · intro name v h
    simp [get_palette, h]
  · intro name v h hf
    simp [get_palette, h, findSuffixPalette_eq_find?, hf]
  · intro name h hf
    simp [get_palette, h, findSuffixPalette_eq_find?, hf]
  · exact ⟨["#440154", "#482777", "#3E4989", "#31688E", "#26828E", "#1F9E89",
      "#35B779", "#6DCD59", "#B4DE2C", "#FDE724"], rfl, rfl, by decide⟩

/-- Claim C6, witness: the exact-name branch at
`colorblind_safe_okabe_ito` and the suffix-fallback branch at `viridis`,
with the hypotheses evaluated on the concrete registry. -/
theorem palette_lookup_order_witness :
    get_palette "colorblind_safe_okabe_ito" =
      .ok ["#E69F00", "#56B4E9", "#009E73", "#F0E442", "#0072B2", "#D55E00",
           "#CC79A7"] ∧
    get_palette "viridis" =
      .ok ["#440154", "#482777", "#3E4989", "#31688E", "#26828E", "#1F9E89",
           "#35B779", "#6DCD59", "#B4DE2C", "#FDE724"] := by
  constructor
  · exact palette_lookup_order.1 "colorblind_safe_okabe_ito" _ rfl
  · exact palette_lookup_order.2.1 "viridis"
      ("scientific_viridis",
        ["#440154", "#482777", "#3E4989", "#31688E", "#26828E", "#1F9E89",
         "#35B779", "#6DCD59", "#B4DE2C", "#FDE724"]) rfl rfl

/-- The `scatter_with_trend` registry entry (templates.py), named for use
in proofs. -/
def scatterTemplate : Template :=
  { description := "Scatter plot with linear regression trend line and confidence interval"
    config :=
     [("geoms", .arr [.obj [("type", .js "point"), ("params", .obj [("size", .jn 2), ("alpha", .jn (3 / 5))])], .obj [("type", .js "smooth"), ("params", .obj [("method", .js "lm"), ("se", .jb true)])]]),
      ("theme", .obj [("base", .js "minimal")])]
    required_aesthetics := ["x", "y"]
    suggested_aesthetics := ["color"] }

theorem get_template_scatter : get_template "scatter_with_trend" = .ok scatterTemplate :=
  rfl

/-- Claim C5: expanding `scatter_with_trend` with aesthetics containing
`x` and `y` yields a configuration whose `geoms` entry is exactly the two
ordered layers, a point layer first and a smooth layer second; expanding
it with aesthetics omitting `y` raises a template error carrying the
required roles `[x, y]` and a missing subset containing `y`. -/
theorem template_scatter_with_trend_expansion (ds : J)
    (aes aes2 : List (String × String))
    (hx : aes.any (fun kv => kv.1 = "x") = true)
    (hy : aes.any (fun kv => kv.1 = "y") = true)
    (hny : aes2.any (fun kv => kv.1 = "y") = false) :
    apply_template "scatter_with_trend" ds aes none =
      .ok [("data_source", ds), ("aes", aesJ aes),
           ("geoms", J.arr [
             J.obj [("type", J.js "point"),
                    ("params", J.obj [("size", J.jn 2), ("alpha", J.jn (3 / 5))])],
             J.obj [("type", J.js "smooth"),
                    ("params", J.obj [("method", J.js "lm"), ("se", J.jb true)])]]),
           ("theme", J.obj [("base", J.js "minimal")])] ∧
    (∃ missing, apply_template "scatter_with_trend" ds aes2 none =
        .error (.missingAes "scatter_with_trend" ["x", "y"] missing) ∧
      "y" ∈ missing) := by
  constructor
  · simp [apply_template, get_template_scatter, scatterTemplate, dictUpdate,
      dictInsert, hx, hy]
  · by_cases hx2 : aes2.any (fun kv => kv.1 = "x") = true
    · refine ⟨["y"], ?_, by simp⟩
      simp [apply_template, get_template_scatter, scatterTemplate, hx2, hny]
    · simp only [Bool.not_eq_true] at hx2
      refine ⟨["x", "y"], ?_, by simp⟩
      simp [apply_template, get_template_scatter, scatterTemplate, hx2, hny]

/-- Claim C5, witness: aesthetics `x`/`y` expand into the point and
smooth layers; aesthetics with only `x` fail naming `y` as missing. -/
theorem template_scatter_with_trend_expansion_witness :
    apply_template "scatter_with_trend" (J.js "d") [("x", "a"), ("y", "b")] none =
      .ok [("data_source", J.js "d"), ("aes", aesJ [("x", "a"), ("y", "b")]),
           ("geoms", J.arr [
             J.obj [("type", J.js "point"),
                    ("params", J.obj [("size", J.jn 2), ("alpha", J.jn (3 / 5))])],
             J.obj [("type", J.js "smooth"),
                    ("params", J.obj [("method", J.js "lm"), ("se", J.jb true)])]]),
           ("theme", J.obj [("base", J.js "minimal")])] ∧
    (∃ missing, apply_template "scatter_with_trend" (J.js "d") [("x", "a")] none =
        .error (.missingAes "scatter_with_trend" ["x", "y"] missing) ∧
      "y" ∈ missing) :=
  template_scatter_with_trend_expansion (J.js "d") [("x", "a"), ("y", "b")]
    [("x", "a")] (by decide) (by decide) (by decide)

theorem distinctFirstSeen_go_nodup {α : Type} [DecidableEq α] :
    ∀ (l seen : List α),
    (distinctFirstSeen.go seen l).Nodup ∧
    ∀ a ∈ distinctFirstSeen.go seen l, a ∉ seen := by
  intro l
  induction l with
  | nil => intro seen; exact ⟨List.nodup_nil, by simp [distinctFirstSeen.go]⟩
  | cons a rest ih =>
    intro seen
    by_cases h : a ∈ seen
    · simpa [distinctFirstSeen.go, h] using ih seen
    · have hrec := ih (a :: seen)
      simp only [distinctFirstSeen.go, h, if_false]
      constructor
      · refine List.Nodup.cons ?_ hrec.1
        intro hmem
        exact (hrec.2 a hmem) (List.mem_cons_self a seen)
      · intro b hb
        rcases List.mem_cons.mp hb with hba | hbm
        · subst hba
          exact h
        · intro hbs
          exact (hrec.2 b hbm) (List.mem_cons_of_mem a hbs)

theorem distinctFirstSeen_nodup {α : Type} [DecidableEq α] (l : List α) :
    (distinctFirstSeen l).Nodup :=
  (distinctFirstSeen_go_nodup l []).1

/-- The advisor rule set exactly as §4.6 of the specification words it:
each applicable rule contributes its template names, in this fixed order.
This definition follows the specification text, for comparison with the
source-derived `suggestCandidates`. -/
def advisorRuleTable (n c : Nat) (t : Bool) : List (Bool × List String) :=
  [(t && decide (1 ≤ n), ["time_series"]),
   (t && decide (1 ≤ n) && decide (1 ≤ c), ["multi_line"]),
   (decide (1 ≤ c) && decide (1 ≤ n), ["distribution_comparison", "boxplot_comparison"]),
   (decide (2 ≤ n), ["scatter_with_trend"]),
   (decide (2 ≤ n) && decide (3 ≤ n), ["correlation_heatmap"]),
   (decide (1 ≤ n) && decide (c = 0), ["histogram_with_density"]),
   (decide (1 ≤ c), ["category_breakdown"])]

/-- The flattened contributions of all applicable specification rules. -/
def specAdvisorCandidates (n c : Nat) (t : Bool) : List String :=
  (advisorRuleTable n c t).flatMap (fun p => if p.1 then p.2 else [])

theorem suggestCandidates_eq_spec (n c : Nat) (t : Bool) :
    suggestCandidates n c t = specAdvisorCandidates n c t := by
  unfold suggestCandidates specAdvisorCandidates advisorRuleTable
  cases t <;> by_cases h1 : 1 ≤ n <;> by_cases h2 : 2 ≤ n <;> by_cases h3 : 3 ≤ n <;>
    by_cases h4 : 1 ≤ c <;> by_cases h5 : c = 0 <;>
    first
      | (exfalso; omega)
      | simp [h1, h2, h3, h4, h5]

/-- Claim C8: the template advisor returns at most 5 names, duplicates
removed keeping first-seen order, built by applying every applicable rule
in the specification's fixed rule order; and a goal whose lowercased text
matches none of the fixed keyword groups leaves the list unfiltered. -/
theorem suggest_template_shape (n c : Nat) (t : Bool) (go : Option String)
    (g : String) :
    (suggest_template n c t go).length ≤ 5 ∧
    (suggest_template n c t go).Nodup ∧
    suggest_template n c t go =
      (distinctFirstSeen (goalFilter go (specAdvisorCandidates n c t))).take 5 ∧
    (g.isEmpty = false →
      strContains (strLower g) "trend" = false →
      strContains (strLower g) "time" = false →
      strContains (strLower g) "compare" = false →
      strContains (strLower g) "comparison" = false →
      strContains (strLower g) "distribution" = false →
      strContains (strLower g) "correlation" = false →
      strContains (strLower g) "relationship" = false →
      suggest_template n c t (some g) = suggest_template n c t none) := by
  refine ⟨?_, ?_, ?_, ?_⟩
  · unfold suggest_template
    exact List.length_take_le 5 _
  · unfold suggest_template
    exact (distinctFirstSeen_nodup _).sublist (List.take_sublist 5 _)
  · unfold suggest_template
    rw [suggestCandidates_eq_spec]
  · intro hne h1 h2 h3 h4 h5 h6 h7
    unfold suggest_template
    have : goalFilter (some g) (suggestCandidates n c t) =
        goalFilter none (suggestCandidates n c t) := by
      simp [goalFilter, hne, h1, h2, h3, h4, h5, h6, h7]
    rw [this]

/-- Claim C8, witness: three numerics, one categorical, temporal data,
and a goal matching no keyword group. -/
theorem suggest_template_shape_witness :
    (suggest_template 3 1 true (some "make it pretty")).length ≤ 5 ∧
    (suggest_template 3 1 true (some "make it pretty")).Nodup ∧
    suggest_template 3 1 true (some "make it pretty") =
      suggest_template 3 1 true none := by
  have h := suggest_template_shape 3 1 true (some "make it pretty") "make it pretty"
  exact ⟨h.1, h.2.1, h.2.2.2 (by decide) (by decide) (by decide) (by decide)
    (by decide) (by decide) (by decide) (by decide)⟩

theorem applyTransformsFrom_append (pre : List Step) :
    ∀ (i : Nat) (d d2 : DataFrame), applyTransformsFrom i d pre = .ok d2 →
    ∀ l, applyTransformsFrom i d (pre ++ l) = applyTransformsFrom (i + pre.length) d2 l := by
  induction pre with
  | nil =>
    intro i d d2 h l
    cases h
    rfl
  | cons s rest ih =>
    intro i d d2 h l
    simp only [applyTransformsFrom] at h
    cases hs : runStep d s with
    | ok dm =>
      rw [hs] at h
      have hrec := ih (i + 1) dm d2 h l
      have harith : i + 1 + rest.length = i + (rest.length + 1) := by omega
      simp only [List.cons_append, applyTransformsFrom, hs, List.length_cons,
        List.append_eq]
      rw [hrec, harith]
    | error e =>
      rw [hs] at h
      cases h

/-- Claim C1: if every step before the i-th succeeds and the i-th step
(1-based) raises, the whole pipeline raises an error carrying the 1-based
position i and the step kind wrapped around the cause; the steps after
the failing one are irrelevant to the result (the conclusion holds for
every suffix), and no dataset is returned. -/
theorem transforms_first_failure (data d2 : DataFrame) (pre : List Step)
    (s : Step) (suf : List Step) (e : String)
    (hpre : apply_transforms data pre = .ok d2)
    (hfail : runStep d2 s = .error e) :
    apply_transforms data (pre ++ s :: suf) =
      .error ("Transform " ++ toString (pre.length + 1) ++ " (" ++ s.kindName ++
        ") failed: " ++ e) := by
  unfold apply_transforms at *
  rw [applyTransformsFrom_append pre 0 data d2 hpre (s :: suf)]
  simp only [applyTransformsFrom, hfail, wrapStepError, Nat.zero_add]

/-- Claim C1, witness: a two-step pipeline whose second step selects an
absent column fails wrapped as `Transform 2 (select)`, for any suffix
(here one further step). -/
theorem transforms_first_failure_witness :
    apply_transforms ⟨["a"], [[some (.num 1)]], [0]⟩
      ([.rename []] ++ Step.select ["zzz"] :: [.select ["a"]]) =
      .error ("Transform " ++ toString ([Step.rename []].length + 1) ++ " (" ++
        (Step.select ["zzz"]).kindName ++ ") failed: " ++
        ("Select error: [\x27zzz\x27] not in index\n\nCheck that all columns exist in data.")) :=
  transforms_first_failure ⟨["a"], [[some (.num 1)]], [0]⟩
    ⟨["a"], [[some (.num 1)]], [0]⟩ [.rename []] (.select ["zzz"]) [.select ["a"]]
    "Select error: [\x27zzz\x27] not in index\n\nCheck that all columns exist in data."
    rfl rfl

/-- Claim C9: the transform pipeline never mutates the caller-supplied
input dataset: in the reference-level model of the source's heap
behaviour, the frame behind the input reference is unchanged after the
pipeline returns or raises, the pipeline's successful result is a
different reference than the input, and every single step likewise
returns a freshly allocated frame. -/
theorem transforms_input_not_mutated (σ : Store) (r : Nat) (ts : List Step)
    (h : r < σ.frames.length) :
    (apply_transforms_ref σ r ts).1.read r = σ.read r ∧
    (∀ r2, (apply_transforms_ref σ r ts).2 = .ok r2 → r2 ≠ r) ∧
    (∀ s r2, (runStepRef σ r s).2 = .ok r2 → r2 ≠ r) := by
  have hsome : ∃ d, σ.read r = some d := by
    have := List.getElem?_eq_getElem h
    exact ⟨σ.frames[r], this⟩
  obtain ⟨d, hd⟩ := hsome
  refine ⟨?_, ?_, ?_⟩
  · simp only [apply_transforms_ref, hd]
    have h2 : r < (σ.alloc d).1.frames.length := by
      rw [Store.length_alloc]
      omega
    have hrec := applyTransformsRefFrom_preserves ts (σ.alloc d).1 (σ.alloc d).2 0 h2
    rw [hrec.1]
    exact (Store.read_alloc_of_lt d h).trans hd
  · intro r2 hr2
    simp only [apply_transforms_ref, hd] at hr2
    have h2 : r < (σ.alloc d).1.frames.length := by
      rw [Store.length_alloc]
      omega
    have hrec := applyTransformsRefFrom_preserves ts (σ.alloc d).1 (σ.alloc d).2 0 h2
    rcases hrec.2.2 r2 hr2 with hc | hc
    · subst hc
      show (σ.alloc d).2 ≠ r
      simp only [Store.alloc]
      omega
    · rw [Store.length_alloc] at hc
      omega
  · intro s r2 hr2
    have := (runStepRef_preserves (σ := σ) (r := r) s h).2.2 r2 hr2
    omega

/-- Claim C9, witness: a one-frame store running a two-step pipeline
(the second step fails) leaves the input frame readable and unchanged. -/
theorem transforms_input_not_mutated_witness :
    (apply_transforms_ref ⟨[⟨["a"], [[some (.num 1)]], [0]⟩]⟩ 0
        [.rename [], .select ["zzz"]]).1.read 0 =
      (Store.mk [⟨["a"], [[some (.num 1)]], [0]⟩]).read 0 ∧
    (∀ r2, (apply_transforms_ref ⟨[⟨["a"], [[some (.num 1)]], [0]⟩]⟩ 0
        [.rename [], .select ["zzz"]]).2 = .ok r2 → r2 ≠ 0) ∧
    (∀ s r2, (runStepRef ⟨[⟨["a"], [[some (.num 1)]], [0]⟩]⟩ 0 s).2 = .ok r2 →
      r2 ≠ 0) :=
  transforms_input_not_mutated ⟨[⟨["a"], [[some (.num 1)]], [0]⟩]⟩ 0
    [.rename [], .select ["zzz"]] (by decide)

theorem getD_zipWith_of_lt {α β γ : Type} (f : α → β → γ) (as : List α)
    (bs : List β) (j : Nat) (d : γ) (da : α) (db : β)
    (ha : j < as.length) (hb : j < bs.length) :
    (List.zipWith f as bs).getD j d = f (as.getD j da) (bs.getD j db) := by
  have hz : j < (List.zipWith f as bs).length := by
    rw [List.length_zipWith]
    exact lt_min ha hb
  rw [List.getD_eq_getElem?_getD, List.getD_eq_getElem?_getD,
    List.getD_eq_getElem?_getD, List.getElem?_eq_getElem ha,
    List.getElem?_eq_getElem hb, List.getElem?_eq_getElem hz]
  simp [List.getElem_zipWith]

theorem getD_map_of_lt {α β : Type} (f : α → β) (l : List α) (j : Nat)
    (d : β) (da : α) (h : j < l.length) :
    (l.map f).getD j d = f (l.getD j da) := by
  have hm : j < (l.map f).length := by
    rw [List.length_map]
    exact h
  rw [List.getD_eq_getElem?_getD, List.getD_eq_getElem?_getD,
    List.getElem?_eq_getElem h, List.getElem?_eq_getElem hm]
  simp [List.getElem_map]

theorem getD_replicate_self {α : Type} (n j : Nat) (a : α) :
    (List.replicate n a).getD j a = a := by
  rw [List.getD_eq_getElem?_getD, List.getElem?_replicate]
  split <;> rfl

/-- The specification's wording of forward filling: each missing cell
takes the last valid value seen before it, scanning in row order. -/
def propagateLastValid : Option Value → List (Option Value) → List (Option Value)
  | _, [] => []
  | last, c :: t =>
    match c with
    | some v => some v :: propagateLastValid (some v) t
    | none => last :: propagateLastValid last t

theorem map_getD_ffillRows {n : Nat} (j : Nat) (hj : j < n) :
    ∀ (rows : List Row) (last : Row), (∀ r ∈ rows, r.length = n) →
    last.length = n →
    (ffillRows last rows).map (fun r => r.getD j none) =
      propagateLastValid (last.getD j none) (rows.map (fun r => r.getD j none)) := by
  intro rows
  induction rows with
  | nil => intro last _ _; rfl
  | cons r rest ih =>
    intro last hlen hlast
    have hr : r.length = n := hlen r (List.mem_cons_self r rest)
    have hcell : (List.zipWith
          (fun l c => match c with | some v => some v | none => l) last r).getD j none
        = (match r.getD j none with
            | some v => some v
            | none => last.getD j none) := by
      rw [getD_zipWith_of_lt _ _ _ j none none none (by omega) (by omega)]
    have hr2len : (List.zipWith
        (fun l c => match c with | some v => some v | none => l) last r).length = n := by
      rw [List.length_zipWith]
      omega
    have hrec := ih (List.zipWith
        (fun l c => match c with | some v => some v | none => l) last r)
      (fun r2 hr2 => hlen r2 (List.mem_cons_of_mem r hr2)) hr2len
    simp only [ffillRows, List.map_cons]
    cases hc : r.getD j none with
    | some v =>
      rw [hc] at hcell
      simp only [propagateLastValid, hc, hcell, hrec]
    | none =>
      rw [hc] at hcell
      simp only [propagateLastValid, hc, hcell, hrec]

/-- Claim C3, counterexample: on a one-column dataset with a missing
second cell, calling the fill_na step with method `forward` raises (the
tabular engine accepts only `ffill`/`pad`/`bfill`/`backfill`) instead of
propagating the last valid value; the propagation the claim describes is
what the method string `ffill` produces. -/
theorem fill_na_forward_method_counterexample :
    apply_fill_na ⟨["a"], [[some (.num 1)], [none]], [0, 1]⟩ (.scalar (.num 0))
        (some "forward") =
      .error "Fill NA error: Invalid fill method. Expecting pad (ffill) or backfill (bfill). Got forward" ∧
    apply_fill_na ⟨["a"], [[some (.num 1)], [none]], [0, 1]⟩ (.scalar (.num 0))
        (some "ffill") =
      .ok ⟨["a"], [[some (.num 1)], [some (.num 1)]], [0, 1]⟩ :=
  ⟨rfl, rfl⟩

/-- Claim C3, amended: with the pandas method string `ffill` the fill_na
step propagates the last valid value along row order per column, with
`bfill` the next valid value (backward propagation is forward propagation
on the reversed row order); the literal method strings `forward` and
`backward` are rejected by the tabular engine and surface as fill_na
errors; with no method, missing values are filled with the supplied
scalar, or per-column values for the columns named in the mapping. -/
theorem fill_na_semantics (d : DataFrame) (fv : FillVals) (v : Value)
    (m : List (String × Value)) (j : Nat) (hwf : d.WF) (hj : j < d.cols.length) :
    (∃ d2, apply_fill_na d fv (some "ffill") = .ok d2 ∧ d2.cols = d.cols ∧
      d2.index = d.index ∧
      getColCells d2 j = propagateLastValid none (getColCells d j)) ∧
    (∃ d2, apply_fill_na d fv (some "bfill") = .ok d2 ∧ d2.cols = d.cols ∧
      d2.index = d.index ∧
      getColCells d2 j =
        (propagateLastValid none (getColCells d j).reverse).reverse) ∧
    (∃ d2, apply_fill_na d (.scalar v) none = .ok d2 ∧ d2.cols = d.cols ∧
      d2.index = d.index ∧
      getColCells d2 j = (getColCells d j).map (fun c =>
        match c with | some w => some w | none => some v)) ∧
    (∃ d2, apply_fill_na d (.perCol m) none = .ok d2 ∧ d2.cols = d.cols ∧
      d2.index = d.index ∧
      getColCells d2 j = (getColCells d j).map (fun c =>
        match c with | some w => some w | none => m.lookup (d.cols.getD j ""))) ∧
    apply_fill_na d fv (some "forward") =
      .error "Fill NA error: Invalid fill method. Expecting pad (ffill) or backfill (bfill). Got forward" ∧
    apply_fill_na d fv (some "backward") =
      .error "Fill NA error: Invalid fill method. Expecting pad (ffill) or backfill (bfill). Got backward" := by
  have hext := map_getD_ffillRows (n := d.cols.length) j hj
  refine ⟨?_, ?_, ?_, ?_, rfl, rfl⟩
  · refine ⟨{ d with
        rows := ffillRows (List.replicate d.cols.length none) d.rows },
      rfl, rfl, rfl, ?_⟩
    unfold getColCells
    rw [hext d.rows _ hwf.1 (List.length_replicate _ _), getD_replicate_self]
  · refine ⟨{ d with
        rows := (ffillRows (List.replicate d.cols.length none) d.rows.reverse).reverse },
      rfl, rfl, rfl, ?_⟩
    unfold getColCells
    show (ffillRows (List.replicate d.cols.length none) d.rows.reverse).reverse.map _ = _
    rw [List.map_reverse, hext d.rows.reverse _
      (fun r hr => hwf.1 r (List.mem_reverse.mp hr)) (List.length_replicate _ _),
      getD_replicate_self, List.map_reverse]
  · refine ⟨{ d with rows := d.rows.map (fun r => r.map (fun c =>
        match c with | some w => some w | none => some v)) }, rfl, rfl, rfl, ?_⟩
    unfold getColCells
    rw [List.map_map, List.map_map]
    apply List.map_congr_left
    intro r hr
    have hrl : j < r.length := by
      rw [hwf.1 r hr]
      exact hj
    exact getD_map_of_lt _ r j none none hrl
  · refine ⟨{ d with rows := d.rows.map (fun r =>
        (d.cols.zip r).map (fun cv => match cv.2 with
          | some w => some w
          | none => m.lookup cv.1)) }, rfl, rfl, rfl, ?_⟩
    unfold getColCells
    rw [List.map_map, List.map_map]
    apply List.map_congr_left
    intro r hr
    have hrl : j < r.length := by
      rw [hwf.1 r hr]
      exact hj
    have hzl : j < (d.cols.zip r).length := by
      rw [List.length_zip]
      exact lt_min hj hrl
    show ((d.cols.zip r).map _).getD j none = _
    rw [getD_map_of_lt _ (d.cols.zip r) j none ("", none) hzl]
    have hz : (d.cols.zip r).getD j ("", none) = (d.cols.getD j "", r.getD j none) := by
      rw [List.zip]
      exact getD_zipWith_of_lt Prod.mk d.cols r j ("", none) "" none hj hrl
    rw [hz]
    rfl

/-- Claim C3, amended, witness: a concrete two-column frame with missing
cells, with the hypotheses discharged by evaluation. -/
theorem fill_na_semantics_witness :
    (∃ d2, apply_fill_na ⟨["a", "b"],
        [[some (.num 1), none], [none, some (.str "x")], [some (.num 3), none]],
        [0, 1, 2]⟩ (.scalar (.num 0)) (some "ffill") = .ok d2 ∧
      d2.cols = ["a", "b"] ∧ d2.index = [0, 1, 2] ∧
      getColCells d2 0 = propagateLastValid none
        (getColCells ⟨["a", "b"],
          [[some (.num 1), none], [none, some (.str "x")], [some (.num 3), none]],
          [0, 1, 2]⟩ 0)) ∧
    apply_fill_na ⟨["a", "b"],
        [[some (.num 1), none], [none, some (.str "x")], [some (.num 3), none]],
        [0, 1, 2]⟩ (.scalar (.num 0)) (some "forward") =
      .error "Fill NA error: Invalid fill method. Expecting pad (ffill) or backfill (bfill). Got forward" := by
  have h := fill_na_semantics ⟨["a", "b"],
    [[some (.num 1), none], [none, some (.str "x")], [some (.num 3), none]],
    [0, 1, 2]⟩ (.scalar (.num 0)) (.num 0) [("a", .num 9)] 0
    (by constructor
        · intro r hr
          fin_cases hr <;> rfl
        · rfl)
    (by decide)
  exact ⟨h.1, h.2.2.2.2.1⟩
